import Mathlib

/-!
Verification of the AlgoBank transactional core: a shallow embedding, in Lean 4,
of the ledger transfer orchestrator (createTransfer), the hash-chained audit log
(recordAuditEvent), the envelope encryption service (encryptPayload and
decryptPayload), the compliance simulator (simulateAml), the isolation-forest
anomaly detector, the risk metrics evaluator (computeMetrics and
evaluateAccountRisk) and the alert dispatcher (raiseRiskAlert).

Conventions of the embedding:
- Monetary values and all detector arithmetic are rationals.  The NUMERIC database columns and JavaScript numbers are modelled exactly; every rational
  is finite, so the Number.isFinite and Number.isNaN guards of the source are
  always-true in the model and noted where they occur.
- External primitives that the source obtains from Node and from external
  services (sha256 digests, AES-GCM, RSA-OAEP, base64, the vault transit
  service, Math.log, Math.pow, the crypto randomness source) are parameters of
  the definitions; the logic of the repository itself over them is concrete and
  executable.  Theorems assume only the contracts those primitives provide.
- Database rows live in in-memory lists inside BankState; a single sequence
  counter supplies both generated identifiers and creation timestamps, so list
  insertion order coincides with created_at order (what the SQL ORDER BY
  created_at relies on).
- Effects are made observable through an event trace (Ev), which records locks,
  balance mutations and row inserts in program order; the all-or-nothing
  transaction boundary of Database.withTransaction is modelled by returning the
  original state of the caller when the transaction body fails.
-/

/-- External numeric and cryptographic oracles used by the services:
digest models crypto.createHash("sha256"), ln models Math.log, pow2 models
Math.pow 2, and rand models the stream of uniform [0,1) draws that
randomBetween derives from crypto.randomBytes (indexed by consumption order). -/
structure Oracles where
  digest : String → String
  ln : Rat → Rat
  pow2 : Rat → Rat
  rand : Nat → Rat

/-- Runtime configuration, from src/backend/src/config/env.ts. -/
structure Env where
  nodeEnv : String
  enableRedisStreams : Bool
  vaultAddr : String
  vaultToken : String
  rsaPublicKey : String
  rsaPrivateKey : String
deriving DecidableEq, Repr

/-- isVaultConfigured from vaultService.ts: Boolean(env.vault.addr && env.vault.token);
string truthiness is non-emptiness. -/
def Env.vaultConfigured (e : Env) : Bool :=
  decide (e.vaultAddr ≠ "") && decide (e.vaultToken ≠ "")

/-- The reachable part of the external Redis world for one publish attempt:
whether getRedisClient obtains a client, and whether xAdd succeeds. -/
structure RedisWorld where
  connectOk : Bool
  xAddOk : Bool
deriving DecidableEq, Repr

/- ===================== Audit log chain (auditLogService.ts) ===================== -/

/-- One row of the audit_logs table.  The structured payload is modelled in its
serialized form (the repository stores it as JSONB and hashes its JSON text). -/
structure AuditLogEntry where
  eventType : String
  payload : String
  hash : String
  previousHash : Option String
deriving DecidableEq, Repr

/-- fetchLatestHash from auditLogRepository.ts: the hash of the most recently
inserted row (ORDER BY created_at DESC LIMIT 1), none on an empty table. -/
def fetchLatestHash (log : List AuditLogEntry) : Option String :=
  (log.getLast?).map (fun e => e.hash)

/-- The serialized triple JSON.stringify of eventType, payload and previousHash
that recordAuditEvent feeds to the sha256 digest.  Field tags and a fixed
rendering of null keep the encoding faithful to the field order of the source. -/
def serializeAudit (eventType payload : String) (previousHash : Option String) : String :=
  "eventType:" ++ eventType ++ ";payload:" ++ payload ++ ";previousHash:" ++
    (match previousHash with
     | none => "null"
     | some h => h)

/-- recordAuditEvent from auditLogService.ts: read the latest hash, digest the
serialized triple, insert the new row. -/
def recordAuditEvent (digest : String → String) (eventType payload : String)
    (log : List AuditLogEntry) : List AuditLogEntry :=
  let previousHash := fetchLatestHash log
  let hash := digest (serializeAudit eventType payload previousHash)
  log ++ [{ eventType := eventType, payload := payload, hash := hash,
            previousHash := previousHash }]

/-- Replay of the chain from a given previous hash: recompute each hash from the
content of each entry and the previously recomputed hash. -/
def replayFrom (digest : String → String) (prev : Option String) :
    List (String × String) → List String
  | [] => []
  | (t, p) :: rest =>
      let h := digest (serializeAudit t p prev)
      h :: replayFrom digest (some h) rest

/-- The hash-relevant content of the stored chain, in creation order. -/
def auditContents (log : List AuditLogEntry) : List (String × String) :=
  log.map (fun e => (e.eventType, e.payload))

/-- Full replay of the stored chain from the initial sentinel. -/
def replayChain (digest : String → String) (log : List AuditLogEntry) : List String :=
  replayFrom digest none (auditContents log)

/-- The verification contract: replaying the whole chain in creation order
reproduces every stored hash. -/
def chainValid (digest : String → String) (log : List AuditLogEntry) : Bool :=
  replayChain digest log == log.map (fun e => e.hash)

/-- Audit logs reachable by the append-only recordAuditEvent interface. -/
inductive AuditLogReachable (digest : String → String) : List AuditLogEntry → Prop
  | nil : AuditLogReachable digest []
  | append (log : List AuditLogEntry) (t p : String) :
      AuditLogReachable digest log →
      AuditLogReachable digest (recordAuditEvent digest t p log)

theorem getLast?_or_shift (l : List String) (h : String) (p : Option String) :
    (h :: l).getLast?.or p = l.getLast?.or (some h) := by
  induction l generalizing h p with
  | nil => simp
  | cons a l2 ih =>
      rw [List.getLast?_cons_cons]
      exact (ih a p).trans (ih a (some h)).symm

theorem replayFrom_snoc (digest : String → String) (x : String × String)
    (xs : List (String × String)) (prev : Option String) :
    replayFrom digest prev (xs ++ [x]) =
      replayFrom digest prev xs ++
        [digest (serializeAudit x.1 x.2 ((replayFrom digest prev xs).getLast?.or prev))] := by
  induction xs generalizing prev with
  | nil => simp [replayFrom]
  | cons y ys ih =>
      rw [List.cons_append]
      simp only [replayFrom]
      rw [ih, getLast?_or_shift]
      simp

theorem getLast?_map_hash (log : List AuditLogEntry) :
    (log.map (fun e => e.hash)).getLast? = (log.getLast?).map (fun e => e.hash) := by
  induction log with
  | nil => simp
  | cons a l ih =>
      cases l with
      | nil => simp
      | cons b l2 => simpa [List.getLast?_cons_cons] using ih

theorem chainValid_nil (digest : String → String) : chainValid digest [] = true := by
  simp [chainValid, replayChain, auditContents, replayFrom]

theorem chainValid_record (digest : String → String) (t p : String)
    (log : List AuditLogEntry) (h : chainValid digest log = true) :
    chainValid digest (recordAuditEvent digest t p log) = true := by
  have hre : replayChain digest log = log.map (fun e => e.hash) := by
    simpa [chainValid] using h
  have hcontents :
      auditContents (recordAuditEvent digest t p log) = auditContents log ++ [(t, p)] := by
    simp [auditContents, recordAuditEvent]
  have hsnoc := replayFrom_snoc digest (t, p) (auditContents log) none
  have hprev : (replayChain digest log).getLast?.or none = fetchLatestHash log := by
    rw [hre, getLast?_map_hash, Option.or_none, fetchLatestHash]
  simp only [replayChain] at hre hprev
  simp only [chainValid, replayChain, hcontents]
  rw [hsnoc, hprev, hre]
  simp [recordAuditEvent]

theorem chainValid_tamper (digest : String → String) (pre post : List AuditLogEntry)
    (e : AuditLogEntry) (h2 : String)
    (hvalid : chainValid digest (pre ++ e :: post) = true)
    (hne : h2 ≠ e.hash) :
    chainValid digest (pre ++ { e with hash := h2 } :: post) = false := by
  have hcontents :
      auditContents (pre ++ { e with hash := h2 } :: post) =
        auditContents (pre ++ e :: post) := by
    simp [auditContents]
  have hre : replayChain digest (pre ++ e :: post) =
      (pre ++ e :: post).map (fun x => x.hash) := by
    simpa [chainValid] using hvalid
  have hre2 : replayChain digest (pre ++ { e with hash := h2 } :: post) =
      (pre ++ e :: post).map (fun x => x.hash) := by
    simp only [replayChain, hcontents]
    exact hre
  rcases Bool.eq_false_or_eq_true
      (chainValid digest (pre ++ { e with hash := h2 } :: post)) with hb | hb
  · exfalso
    have hbeq : (replayChain digest (pre ++ { e with hash := h2 } :: post) ==
        (pre ++ { e with hash := h2 } :: post).map (fun x => x.hash)) = true := by
      unfold chainValid at hb
      exact hb
    have hbad : replayChain digest (pre ++ { e with hash := h2 } :: post) =
        (pre ++ { e with hash := h2 } :: post).map (fun x => x.hash) := eq_of_beq hbeq
    have heq : (pre ++ e :: post).map (fun x => x.hash) =
        (pre ++ { e with hash := h2 } :: post).map (fun x => x.hash) := by
      rw [← hre2, hbad]
    simp only [List.map_append, List.map_cons] at heq
    have hheads := List.append_cancel_left heq
    simp at hheads
    exact hne hheads.symm
  · exact hb

/-- C3: for every appended audit entry, the stored hash is the digest of
(eventType, payload, previousHash) with previousHash the latest stored hash (or
the null sentinel on the first entry); replaying the whole chain reproduces
every stored hash; and altering any single stored hash is detected by the
replay.  Quantified over every digest function, in particular sha256. -/
theorem audit_chain_correct (digest : String → String) (log : List AuditLogEntry)
    (hreach : AuditLogReachable digest log) :
    chainValid digest log = true ∧
    (∀ t p, (recordAuditEvent digest t p log).getLast? =
        some { eventType := t, payload := p,
               hash := digest (serializeAudit t p (fetchLatestHash log)),
               previousHash := fetchLatestHash log }) ∧
    (∀ pre e post h2, log = pre ++ e :: post → h2 ≠ e.hash →
        chainValid digest (pre ++ { e with hash := h2 } :: post) = false) := by
  have hvalid : chainValid digest log = true := by
    induction hreach with
    | nil => exact chainValid_nil digest
    | append l t p _ ih => exact chainValid_record digest t p l ih
  refine ⟨hvalid, ?_, ?_⟩
  · intro t p
    simp [recordAuditEvent]
  · intro pre e post h2 hsplit hne
    exact chainValid_tamper digest pre post e h2 (hsplit ▸ hvalid) hne

/-- Concrete digest used by the audit-chain witness. -/
def witnessDigest (s : String) : String := "sha:" ++ s

/-- Concrete two-entry chain built through recordAuditEvent. -/
def witnessLog : List AuditLogEntry :=
  recordAuditEvent witnessDigest "risk.alert.raised" "p2"
    (recordAuditEvent witnessDigest "transaction.transfer" "p1" [])

theorem audit_chain_correct_witness :
    chainValid witnessDigest witnessLog = true ∧
    (∀ t p, (recordAuditEvent witnessDigest t p witnessLog).getLast? =
        some { eventType := t, payload := p,
               hash := witnessDigest (serializeAudit t p (fetchLatestHash witnessLog)),
               previousHash := fetchLatestHash witnessLog }) ∧
    (∀ pre e post h2, witnessLog = pre ++ e :: post → h2 ≠ e.hash →
        chainValid witnessDigest (pre ++ { e with hash := h2 } :: post) = false) :=
  audit_chain_correct witnessDigest witnessLog
    (AuditLogReachable.append _ _ _
      (AuditLogReachable.append _ _ _ (AuditLogReachable.nil)))

/- ================= Envelope encryption service (encryptionService.ts) ================= -/

/-- Errors of the encryption service.  decryptionError models the auth-tag
verification failure thrown by decipher.final; parseError models a JSON.parse
failure on the recovered plaintext; rsaNotConfigured models the fail-fast throw
when the RSA key pair is absent; vaultError models a thrown vault request. -/
inductive CryptoErr
  | rsaNotConfigured
  | vaultError (msg : String)
  | decryptionError
  | parseError
deriving DecidableEq, Repr

/-- The envelope produced by encryptPayload (interface EncryptedPayload). -/
structure EncryptedPayload where
  encryptedKey : String
  iv : String
  authTag : String
  ciphertext : String
  vaultCiphertext : Option String
deriving DecidableEq, Repr

/-- External cryptographic primitives, over payload type A and byte lists:
JSON serialization, AES-256-GCM (cipher body and authentication tag computed
over the ciphertext), RSA-OAEP wrap/unwrap keyed by the PEM strings, base64,
and the optional vault transit service. -/
structure CryptoPrims (A : Type) where
  ser : A → List Nat
  parse : List Nat → Option A
  aesEnc : List Nat → List Nat → List Nat → List Nat
  aesDec : List Nat → List Nat → List Nat → List Nat
  gcmTag : List Nat → List Nat → List Nat → List Nat
  rsaEnc : String → List Nat → List Nat
  rsaDec : String → List Nat → List Nat
  b64e : List Nat → String
  b64d : String → List Nat
  vaultWrap : List Nat → Except String String
  vaultUnwrap : String → Except String (List Nat)

/-- encryptWithVault from vaultService.ts: when the vault is not configured the
raw key bytes are returned base64-encoded; otherwise the transit service wraps
them (a failed request propagates as an exception). -/
def encryptWithVault {A : Type} (P : CryptoPrims A) (env : Env) (plaintext : List Nat) :
    Except String String :=
  if env.vaultConfigured then P.vaultWrap plaintext
  else Except.ok (P.b64e plaintext)

/-- decryptWithVault from vaultService.ts: when the vault is not configured the
ciphertext argument is simply base64-decoded; otherwise the transit service
unwraps it (a failed request or missing plaintext propagates). -/
def decryptWithVault {A : Type} (P : CryptoPrims A) (env : Env) (ciphertext : String) :
    Except String (List Nat) :=
  if env.vaultConfigured then P.vaultUnwrap ciphertext
  else Except.ok (P.b64d ciphertext)

/-- encryptPayload from encryptionService.ts.  The fresh 32-byte content key and
12-byte nonce drawn from crypto.randomBytes are explicit arguments. -/
def encryptPayload {A : Type} (P : CryptoPrims A) (env : Env) (payload : A)
    (aesKey iv : List Nat) : Except CryptoErr EncryptedPayload :=
  if env.rsaPublicKey = "" ∨ env.rsaPrivateKey = "" then
    Except.error CryptoErr.rsaNotConfigured
  else
    let serialized := P.ser payload
    let encrypted := P.aesEnc aesKey iv serialized
    let authTag := P.gcmTag aesKey iv encrypted
    let encryptedKey := P.rsaEnc env.rsaPublicKey aesKey
    match encryptWithVault P env aesKey with
    | Except.error e => Except.error (CryptoErr.vaultError e)
    | Except.ok vaultCiphertext =>
        Except.ok
          { encryptedKey := P.b64e encryptedKey
            iv := P.b64e iv
            authTag := P.b64e authTag
            ciphertext := P.b64e encrypted
            vaultCiphertext := some vaultCiphertext }

/-- The content-key recovery step of decryptPayload (lines 289-310 of the
service): prefer the vault ciphertext when present and truthy (non-empty), fall
back to the RSA-OAEP unwrap of the encrypted key when the vault path is absent
or throws. -/
def resolveAesKey {A : Type} (P : CryptoPrims A) (env : Env) (input : EncryptedPayload) :
    List Nat :=
  let viaVault : Option (List Nat) :=
    match input.vaultCiphertext with
    | some s =>
        if s = "" then none
        else
          match decryptWithVault P env s with
          | Except.ok k => some k
          | Except.error _ => none
    | none => none
  match viaVault with
  | some k => k
  | none => P.rsaDec env.rsaPrivateKey (P.b64d input.encryptedKey)

/-- decryptPayload from encryptionService.ts: recover the content key, verify
the GCM authentication tag over the ciphertext, decrypt and parse. -/
def decryptPayload {A : Type} (P : CryptoPrims A) (env : Env) (input : EncryptedPayload) :
    Except CryptoErr A :=
  let aesKey := resolveAesKey P env input
  let iv := P.b64d input.iv
  let ct := P.b64d input.ciphertext
  if P.gcmTag aesKey iv ct = P.b64d input.authTag then
    match P.parse (P.aesDec aesKey iv ct) with
    | some p => Except.ok p
    | none => Except.error CryptoErr.parseError
  else Except.error CryptoErr.decryptionError

theorem resolveAesKey_of_encrypt {A : Type} (P : CryptoPrims A) (env : Env) (p : A)
    (aesKey iv : List Nat) (e : EncryptedPayload)
    (henc : encryptPayload P env p aesKey iv = Except.ok e)
    (hrsa : P.rsaDec env.rsaPrivateKey
      (P.b64d (P.b64e (P.rsaEnc env.rsaPublicKey aesKey))) = aesKey)
    (hv : ∀ vc, encryptWithVault P env aesKey = Except.ok vc →
      (∃ m, decryptWithVault P env vc = Except.error m) ∨
        decryptWithVault P env vc = Except.ok aesKey) :
    resolveAesKey P env e = aesKey ∧
    e.iv = P.b64e iv ∧
    e.ciphertext = P.b64e (P.aesEnc aesKey iv (P.ser p)) ∧
    e.authTag = P.b64e (P.gcmTag aesKey iv (P.aesEnc aesKey iv (P.ser p))) ∧
    e.encryptedKey = P.b64e (P.rsaEnc env.rsaPublicKey aesKey) := by
  unfold encryptPayload at henc
  split at henc
  · exact absurd henc (by simp)
  · revert henc
    cases hw : encryptWithVault P env aesKey with
    | error m => intro henc; exact absurd henc (by simp)
    | ok vc =>
        intro henc
        simp only [Except.ok.injEq] at henc
        subst henc
        refine ⟨?_, rfl, rfl, rfl, rfl⟩
        unfold resolveAesKey
        rcases hv vc hw with ⟨m, hm⟩ | hok
        · by_cases hvc : vc = ""
          · simp [hvc, hrsa]
          · simp [hvc, hm, hrsa]
        · by_cases hvc : vc = ""
          · simp [hvc, hrsa]
          · simp [hvc, hok]

/-- C4: the envelope encryption round-trip law and tamper detection.  Under the
contracts of the external primitives (JSON, AES-GCM, RSA-OAEP and base64
round-trips at the values in play, an injective authentication tag, and a vault
that either fails or returns the wrapped key), decryptPayload inverts
encryptPayload, and any change to the decoded authentication tag or to the
decoded ciphertext makes decryptPayload fail with decryptionError. -/
theorem encrypt_decrypt_roundtrip_and_tamper {A : Type} (P : CryptoPrims A) (env : Env)
    (p : A) (aesKey iv : List Nat) (e : EncryptedPayload)
    (henc : encryptPayload P env p aesKey iv = Except.ok e)
    (hser : P.parse (P.ser p) = some p)
    (haes : P.aesDec aesKey iv (P.aesEnc aesKey iv (P.ser p)) = P.ser p)
    (hrsa : P.rsaDec env.rsaPrivateKey
      (P.b64d (P.b64e (P.rsaEnc env.rsaPublicKey aesKey))) = aesKey)
    (hivr : P.b64d (P.b64e iv) = iv)
    (hctr : P.b64d (P.b64e (P.aesEnc aesKey iv (P.ser p))) = P.aesEnc aesKey iv (P.ser p))
    (htagr : P.b64d (P.b64e (P.gcmTag aesKey iv (P.aesEnc aesKey iv (P.ser p)))) =
      P.gcmTag aesKey iv (P.aesEnc aesKey iv (P.ser p)))
    (hv : ∀ vc, encryptWithVault P env aesKey = Except.ok vc →
      (∃ m, decryptWithVault P env vc = Except.error m) ∨
        decryptWithVault P env vc = Except.ok aesKey)
    (htaginj : ∀ m1 m2, P.gcmTag aesKey iv m1 = P.gcmTag aesKey iv m2 → m1 = m2) :
    decryptPayload P env e = Except.ok p ∧
    (∀ t2, P.b64d t2 ≠ P.b64d e.authTag →
      decryptPayload P env { e with authTag := t2 } = Except.error CryptoErr.decryptionError) ∧
    (∀ c2, P.b64d c2 ≠ P.b64d e.ciphertext →
      decryptPayload P env { e with ciphertext := c2 } =
        Except.error CryptoErr.decryptionError) := by
  obtain ⟨hkey, hiv, hct, htag, _⟩ := resolveAesKey_of_encrypt P env p aesKey iv e henc hrsa hv
  have hkey2 : ∀ t2, resolveAesKey P env { e with authTag := t2 } = aesKey := by
    intro t2
    rw [← hkey]
    unfold resolveAesKey
    rfl
  have hkey3 : ∀ c2, resolveAesKey P env { e with ciphertext := c2 } = aesKey := by
    intro c2
    rw [← hkey]
    unfold resolveAesKey
    rfl
  refine ⟨?_, ?_, ?_⟩
  · unfold decryptPayload
    rw [hkey, hiv, hct, htag, hivr, hctr, htagr]
    simp [haes, hser]
  · intro t2 hne
    unfold decryptPayload
    rw [hkey2 t2]
    have : P.gcmTag aesKey (P.b64d { e with authTag := t2 }.iv)
        (P.b64d { e with authTag := t2 }.ciphertext) ≠
        P.b64d { e with authTag := t2 }.authTag := by
      simp only []
      rw [hiv, hct, hivr, hctr]
      intro hcontra
      apply hne
      rw [htag, htagr, ← hcontra]
    rw [if_neg this]
  · intro c2 hne
    unfold decryptPayload
    rw [hkey3 c2]
    have : P.gcmTag aesKey (P.b64d { e with ciphertext := c2 }.iv)
        (P.b64d { e with ciphertext := c2 }.ciphertext) ≠
        P.b64d { e with ciphertext := c2 }.authTag := by
      simp only []
      rw [hiv, hivr, htag, htagr]
      intro hcontra
      apply hne
      have := htaginj _ _ hcontra
      rw [this, hct, hctr]
    rw [if_neg this]

/-- Concrete primitives for the encryption witnesses: byte lists are encoded by
shifting into printable characters, the cipher body is the identity permutation
and the tag is the full ciphertext (an injective tag). -/
def witnessPrims : CryptoPrims Nat where
  ser := fun n => [n]
  parse := fun l => l.head?
  aesEnc := fun _ _ m => m
  aesDec := fun _ _ m => m
  gcmTag := fun _ _ m => m
  rsaEnc := fun _ k => k
  rsaDec := fun _ c => c
  b64e := fun l => String.mk (l.map (fun n => Char.ofNat (n + 65)))
  b64d := fun s => s.toList.map (fun c => c.toNat - 65)
  vaultWrap := fun _ => Except.error "unconfigured"
  vaultUnwrap := fun _ => Except.error "unconfigured"

/-- Concrete environment with the RSA pair configured and no vault. -/
def witnessCryptoEnv : Env :=
  { nodeEnv := "test", enableRedisStreams := false, vaultAddr := "", vaultToken := "",
    rsaPublicKey := "pub", rsaPrivateKey := "priv" }

/-- The envelope encryptPayload produces for payload 7, key [1, 2], nonce [3]. -/
def witnessEnvelope : EncryptedPayload :=
  { encryptedKey := "BC", iv := "D", authTag := "H", ciphertext := "H",
    vaultCiphertext := some "BC" }

theorem encrypt_decrypt_roundtrip_and_tamper_witness :
    decryptPayload witnessPrims witnessCryptoEnv witnessEnvelope = Except.ok 7 ∧
    decryptPayload witnessPrims witnessCryptoEnv { witnessEnvelope with authTag := "zz" } =
      Except.error CryptoErr.decryptionError ∧
    decryptPayload witnessPrims witnessCryptoEnv { witnessEnvelope with ciphertext := "zz" } =
      Except.error CryptoErr.decryptionError := by
  have hv : ∀ vc, encryptWithVault witnessPrims witnessCryptoEnv [1, 2] = Except.ok vc →
      (∃ m, decryptWithVault witnessPrims witnessCryptoEnv vc = Except.error m) ∨
        decryptWithVault witnessPrims witnessCryptoEnv vc = Except.ok [1, 2] := by
    intro vc h
    right
    injection h with hvc
    rw [← hvc]
    rfl
  have h := encrypt_decrypt_roundtrip_and_tamper witnessPrims witnessCryptoEnv 7 [1, 2] [3]
    witnessEnvelope rfl rfl rfl rfl rfl rfl rfl hv (fun _ _ hth => hth)
  exact ⟨h.1, h.2.1 "zz" (by decide), h.2.2 "zz" (by decide)⟩

/-- C10: with no vault configured, encryptPayload still fills vaultCiphertext,
and its value is exactly the base64 encoding of the raw AES content key; the key
recovery step of decryptPayload then returns the content key by base64-decoding
that field, for every possible RSA unwrap function - so the RSA unwrap is never
consulted. -/
theorem encrypt_vault_unconfigured_raw_key {A : Type} (P : CryptoPrims A) (env : Env)
    (p : A) (aesKey iv : List Nat) (e : EncryptedPayload)
    (hvc : env.vaultConfigured = false)
    (henc : encryptPayload P env p aesKey iv = Except.ok e)
    (hb64 : P.b64d (P.b64e aesKey) = aesKey)
    (hne : P.b64e aesKey ≠ "") :
    e.vaultCiphertext = some (P.b64e aesKey) ∧
    ∀ rd, resolveAesKey { P with rsaDec := rd } env e = aesKey := by
  unfold encryptPayload at henc
  split at henc
  · exact absurd henc (by simp)
  · rw [show encryptWithVault P env aesKey = Except.ok (P.b64e aesKey) from by
      unfold encryptWithVault
      rw [hvc]
      simp] at henc
    simp only [Except.ok.injEq] at henc
    subst henc
    refine ⟨rfl, ?_⟩
    intro rd
    unfold resolveAesKey decryptWithVault
    simp [hvc, hne, hb64]

theorem encrypt_vault_unconfigured_raw_key_witness :
    witnessEnvelope.vaultCiphertext = some (witnessPrims.b64e [1, 2]) ∧
    ∀ rd, resolveAesKey { witnessPrims with rsaDec := rd } witnessCryptoEnv witnessEnvelope =
      [1, 2] :=
  encrypt_vault_unconfigured_raw_key witnessPrims witnessCryptoEnv 7 [1, 2] [3]
    witnessEnvelope (by decide) rfl (by decide) (by decide)

/- ===================== Data model and persistent state ===================== -/

/-- Transaction direction (CHECK constraint of the transactions table). -/
inductive Direction
  | debit
  | credit
deriving DecidableEq, Repr

/-- User roles (CHECK constraint of the users table). -/
inductive Role
  | admin
  | auditor
  | client
deriving DecidableEq, Repr

/-- Alert severities (CHECK constraint of the risk_alerts table). -/
inductive Severity
  | low
  | medium
  | high
  | critical
deriving DecidableEq, Repr

/-- Compliance check statuses (CHECK constraint of compliance_checks). -/
inductive CheckStatus
  | pending
  | passed
  | failed
deriving DecidableEq, Repr

/-- One row of the accounts table (identifiers are modelled as naturals). -/
structure Account where
  id : Nat
  userId : Nat
  balance : Rat
  currency : String
deriving DecidableEq, Repr

/-- One row of the transactions table.  createdAt is the value of the
sequence counter at insertion time, so it orders rows like created_at. -/
structure Txn where
  id : Nat
  accountId : Nat
  counterpartyAccountId : Option Nat
  amount : Rat
  currency : String
  direction : Direction
  memo : Option String
  encryptedPayload : String
  createdAt : Nat
deriving DecidableEq, Repr

/-- rulesTriggered of the AML details payload. -/
structure AmlRules where
  highValue : Bool
  memoPattern : Bool
deriving DecidableEq, Repr

/-- One row of the compliance_checks table (the JSONB details are modelled by
the decision-relevant rulesTriggered component). -/
structure ComplianceCheckRecord where
  id : Nat
  userId : Nat
  transactionId : Option Nat
  checkType : String
  status : CheckStatus
  amlRules : Option AmlRules
deriving DecidableEq, Repr

/-- The ComplianceResult value returned to callers of the simulator. -/
structure ComplianceResult where
  checkType : String
  status : CheckStatus
  rules : Option AmlRules
deriving DecidableEq, Repr

/-- One row of the risk_metrics table. -/
structure RiskMetricRecord where
  id : Nat
  accountId : Nat
  exposure : Rat
  leverage : Rat
  lossRat : Rat
  windowInDays : Nat
deriving DecidableEq, Repr

/-- One row of the risk_anomalies table. -/
structure AnomalyEventRecord where
  id : Nat
  transactionId : Nat
  accountId : Nat
  score : Rat
  threshold : Rat
  detectorVersion : String
deriving DecidableEq, Repr

/-- One row of the risk_alerts table (details kept in serialized form). -/
structure RiskAlertRecord where
  id : Nat
  accountId : Option Nat
  alertType : String
  severity : Severity
  details : String
  triggeredAt : Nat
deriving DecidableEq, Repr

/-- The persistent database state: the seven tables touched by the core, plus
the sequence counter that supplies generated ids and created_at order. -/
structure BankState where
  accounts : List Account
  transactions : List Txn
  auditLog : List AuditLogEntry
  complianceChecks : List ComplianceCheckRecord
  riskMetrics : List RiskMetricRecord
  riskAnomalies : List AnomalyEventRecord
  riskAlerts : List RiskAlertRecord
  seq : Nat
deriving DecidableEq, Repr

/-- Observable effects, recorded in program order even when the enclosing
transaction later rolls back: a FOR UPDATE row lock taken, a balance UPDATE,
and each kind of row insert. -/
inductive Ev
  | lockAcquired (accountId : Nat)
  | balanceUpdated (accountId : Nat)
  | txnInserted (accountId : Nat)
  | auditAppended (eventType : String)
  | complianceInserted (checkType : String)
  | riskMetricInserted (accountId : Nat)
  | anomalyInserted (accountId : Nat)
  | alertPersisted (alertType : String)
deriving DecidableEq, Repr

/-- The in-flight world of one request: pending database state, the event
trace so far, and the randomness cursor of the detector. -/
structure WState where
  db : BankState
  trace : List Ev
  rng : Nat
deriving Repr

/-- Errors surfaced by the transfer pipeline.  Constructors mirror the throw
sites: AppError(422) for failed request validation, AppError for the
same-account, non-positive-amount and currency checks, AppError(404) when an
account is missing, ForbiddenError for the ownership check, AppError for
"Insufficient funds.", the encryption service errors, the risk evaluator
account-not-found throw, and a rejected redis xAdd publish. -/
inductive TransferError
  | validationFailed (msgs : List String)
  | sameAccount
  | nonPositiveAmount
  | accountNotFound
  | forbidden
  | currencyMismatch
  | insufficientFunds
  | encryptionFailed (e : CryptoErr)
  | riskNotFound (accountId : Nat)
  | publishFailed (msg : String)
deriving DecidableEq, Repr

/- ===================== Repository layer ===================== -/

/-- SELECT ... WHERE id = $1 over the accounts list (first match). -/
def findAccount (accounts : List Account) (accountId : Nat) : Option Account :=
  accounts.find? (fun a => a.id == accountId)

/-- UPDATE accounts SET balance = balance + delta WHERE id = $2; the
two statements are the delta = -amount and delta = +amount instances. -/
def updateBalance (accounts : List Account) (accountId : Nat) (delta : Rat) : List Account :=
  accounts.map (fun a => if a.id == accountId then { a with balance := a.balance + delta } else a)

/-- listTransactionsForAccount from transactionRepository.ts: rows of the
account, most recent first (ORDER BY created_at DESC), LIMIT applied. -/
def listTransactionsForAccount (st : BankState) (accountId : Nat) (limit : Nat) : List Txn :=
  ((st.transactions.filter (fun t => t.accountId == accountId)).reverse).take limit

/-- findAccountByIdForUpdate from accountRepository.ts: the SELECT ... FOR
UPDATE takes a row lock exactly when the row exists. -/
def findAccountByIdForUpdate (w : WState) (accountId : Nat) : WState × Option Account :=
  match findAccount w.db.accounts accountId with
  | some a => ({ w with trace := w.trace ++ [Ev.lockAcquired accountId] }, some a)
  | none => (w, none)

/-- The two balance UPDATE statements of createTransfer. -/
def updateBalanceW (w : WState) (accountId : Nat) (delta : Rat) : WState :=
  { w with db := { w.db with accounts := updateBalance w.db.accounts accountId delta },
           trace := w.trace ++ [Ev.balanceUpdated accountId] }

/-- insertTransaction from transactionRepository.ts. -/
def insertTransactionW (w : WState) (accountId : Nat) (counterpartyAccountId : Option Nat)
    (amount : Rat) (currency : String) (direction : Direction) (memo : Option String)
    (encryptedPayload : String) : WState × Txn :=
  let t : Txn :=
    { id := w.db.seq, accountId := accountId, counterpartyAccountId := counterpartyAccountId,
      amount := amount, currency := currency, direction := direction, memo := memo,
      encryptedPayload := encryptedPayload, createdAt := w.db.seq }
  ({ w with db := { w.db with transactions := w.db.transactions ++ [t], seq := w.db.seq + 1 },
            trace := w.trace ++ [Ev.txnInserted accountId] }, t)

/-- recordAuditEvent applied to the persistent state. -/
def recordAuditEventW (digest : String → String) (eventType payload : String)
    (w : WState) : WState :=
  { w with db := { w.db with auditLog := recordAuditEvent digest eventType payload w.db.auditLog },
           trace := w.trace ++ [Ev.auditAppended eventType] }

/-- insertComplianceCheck from complianceRepository.ts. -/
def insertComplianceCheckW (w : WState) (userId : Nat) (transactionId : Option Nat)
    (checkType : String) (status : CheckStatus) (amlRules : Option AmlRules) :
    WState × ComplianceCheckRecord :=
  let r : ComplianceCheckRecord :=
    { id := w.db.seq, userId := userId, transactionId := transactionId,
      checkType := checkType, status := status, amlRules := amlRules }
  ({ w with db := { w.db with complianceChecks := w.db.complianceChecks ++ [r], seq := w.db.seq + 1 },
            trace := w.trace ++ [Ev.complianceInserted checkType] }, r)

/-- insertRiskMetric from riskRepository.ts. -/
def insertRiskMetricW (w : WState) (accountId : Nat) (exposure leverage lossRat : Rat)
    (windowInDays : Nat) : WState :=
  let r : RiskMetricRecord :=
    { id := w.db.seq, accountId := accountId, exposure := exposure, leverage := leverage,
      lossRat := lossRat, windowInDays := windowInDays }
  { w with db := { w.db with riskMetrics := w.db.riskMetrics ++ [r], seq := w.db.seq + 1 },
           trace := w.trace ++ [Ev.riskMetricInserted accountId] }

/-- insertAnomalyEvent from riskRepository.ts. -/
def insertAnomalyEventW (w : WState) (transactionId accountId : Nat) (score threshold : Rat)
    (detectorVersion : String) : WState :=
  let r : AnomalyEventRecord :=
    { id := w.db.seq, transactionId := transactionId, accountId := accountId,
      score := score, threshold := threshold, detectorVersion := detectorVersion }
  { w with db := { w.db with riskAnomalies := w.db.riskAnomalies ++ [r], seq := w.db.seq + 1 },
           trace := w.trace ++ [Ev.anomalyInserted accountId] }

/-- insertRiskAlert from riskRepository.ts. -/
def insertRiskAlertW (w : WState) (accountId : Option Nat) (alertType : String)
    (severity : Severity) (details : String) : WState × RiskAlertRecord :=
  let r : RiskAlertRecord :=
    { id := w.db.seq, accountId := accountId, alertType := alertType, severity := severity,
      details := details, triggeredAt := w.db.seq }
  ({ w with db := { w.db with riskAlerts := w.db.riskAlerts ++ [r], seq := w.db.seq + 1 },
            trace := w.trace ++ [Ev.alertPersisted alertType] }, r)

/- ===================== Alert dispatcher (alertService.ts) ===================== -/

/-- Rendering helpers used where the source serializes structured values. -/
def ratStr (q : Rat) : String := toString q.num ++ "/" ++ toString q.den

def sevStr : Severity → String
  | Severity.low => "low"
  | Severity.medium => "medium"
  | Severity.high => "high"
  | Severity.critical => "critical"

def optNatStr : Option Nat → String
  | none => ""
  | some n => toString n

/-- The audit payload recorded for a raised alert. -/
def serializeAlertAudit (a : RiskAlertRecord) : String :=
  "alertId:" ++ toString a.id ++ ";alertType:" ++ a.alertType ++ ";severity:" ++
    sevStr a.severity ++ ";accountId:" ++ optNatStr a.accountId ++ ";details:" ++ a.details

/-- publishToStream from utils/redis.ts: a no-op when streams are disabled;
when getRedisClient cannot obtain a client (connection failure cached there,
error logged) the publish is skipped; otherwise redis.xAdd runs and a rejected
xAdd propagates as an exception - there is no catch on this path. -/
def publishToStream (env : Env) (redis : RedisWorld) (stream : String)
    (payload : List (String × String)) : Except String Unit :=
  if env.enableRedisStreams = false then Except.ok ()
  else if redis.connectOk = false then Except.ok ()
  else if redis.xAddOk then Except.ok ()
  else Except.error ("xAdd rejected on " ++ stream ++ " with " ++ toString payload.length ++ " fields")

/-- The alert row raiseRiskAlert persists, before the audit append. -/
def raisedAlert (w : WState) (accountId : Option Nat) (alertType : String)
    (severity : Severity) (details : String) : RiskAlertRecord :=
  { id := w.db.seq, accountId := accountId, alertType := alertType, severity := severity,
    details := details, triggeredAt := w.db.seq }

/-- raiseRiskAlert from alertService.ts: insert the alert, append the audit
entry, then publish the flattened summary; the publish call is not guarded, so
its failure propagates to the caller. -/
def raiseRiskAlert (digest : String → String) (env : Env) (redis : RedisWorld)
    (accountId : Option Nat) (alertType : String) (severity : Severity) (details : String)
    (w : WState) : WState × Except TransferError RiskAlertRecord :=
  let alert := raisedAlert w accountId alertType severity details
  let w1 := (insertRiskAlertW w accountId alertType severity details).1
  let w2 := recordAuditEventW digest "risk.alert.raised" (serializeAlertAudit alert) w1
  (w2,
    match publishToStream env redis "risk-alerts"
        [("id", toString alert.id), ("type", alert.alertType),
         ("severity", sevStr alert.severity), ("accountId", optNatStr alert.accountId),
         ("triggeredAt", toString alert.triggeredAt)] with
    | Except.ok _ => Except.ok alert
    | Except.error m => Except.error (TransferError.publishFailed m))

/- ===================== Compliance simulator (complianceService.ts) ===================== -/

def AML_THRESHOLD : Rat := 50000

/-- The fixed high-risk memo keyword list (the case-insensitive source
regular expressions offshore, crypto, shell, hawala). -/
def HIGH_RISK_MEMO_PATTERNS : List String := ["offshore", "crypto", "shell", "hawala"]

/-- Whether pat occurs at the head of hay. -/
def startsWithChars : List Char → List Char → Bool
  | _, [] => true
  | [], _ :: _ => false
  | h :: hs, p :: ps => h == p && startsWithChars hs ps

/-- Whether pat occurs as a contiguous substring of hay. -/
def hasSubChars : List Char → List Char → Bool
  | [], pat => pat.isEmpty
  | h :: hs, pat => startsWithChars (h :: hs) pat || hasSubChars hs pat

/-- The memo test of simulateAml: each /pattern/i regular expression holds
exactly when the lower-cased memo contains the (lower-case) keyword. -/
def amlMemoMatch (memo : Option String) : Bool :=
  match memo with
  | none => false
  | some m =>
      HIGH_RISK_MEMO_PATTERNS.any (fun p => hasSubChars (m.toList.map Char.toLower) p.toList)

/-- simulateKyc: a deterministic mock that always passes (the fixed provider
and risk score of the details blob are decision-irrelevant). -/
def simulateKyc (userId : Nat) (w : WState) : WState × ComplianceResult :=
  let w1 := (insertComplianceCheckW w userId none "kyc-profile" CheckStatus.passed none).1
  (w1, { checkType := "kyc-profile", status := CheckStatus.passed, rules := none })

/-- The details payload of a raised AML alert. -/
def serializeAmlAlert (userId transactionId : Nat) (amount : Rat) (currency : String)
    (memoMatch : Bool) : String :=
  "userId:" ++ toString userId ++ ";transactionId:" ++ toString transactionId ++
    ";amount:" ++ ratStr amount ++ ";currency:" ++ currency ++ ";reason:" ++
    (if memoMatch then "memo_pattern" else "high_value")

/-- simulateAml from complianceService.ts. -/
def simulateAml (digest : String → String) (env : Env) (redis : RedisWorld)
    (userId transactionId : Nat) (amount : Rat) (currency : String) (memo : Option String)
    (w : WState) : WState × Except TransferError ComplianceResult :=
  let memoMatch := amlMemoMatch memo
  let isHighValue : Bool := decide (AML_THRESHOLD ≤ amount)
  let flagged := memoMatch || isHighValue
  let status := if flagged then CheckStatus.failed else CheckStatus.passed
  let rules : AmlRules := { highValue := isHighValue, memoPattern := memoMatch }
  let w1 := (insertComplianceCheckW w userId (some transactionId) "aml-transaction"
    status (some rules)).1
  let result : ComplianceResult :=
    { checkType := "aml-transaction", status := status, rules := some rules }
  if status = CheckStatus.failed ∧ env.nodeEnv ≠ "test" then
    let p := raiseRiskAlert digest env redis none "aml_flag" Severity.critical
      (serializeAmlAlert userId transactionId amount currency memoMatch) w1
    match p.2 with
    | Except.error e => (p.1, Except.error e)
    | Except.ok _ => (p.1, Except.ok result)
  else (w1, Except.ok result)

/-- The audit payload of a completed compliance simulation. -/
def serializeComplianceAudit (transactionId userId : Nat) (results : List ComplianceResult) :
    String :=
  "transactionId:" ++ toString transactionId ++ ";userId:" ++ toString userId ++
    ";results:" ++ String.intercalate ","
      (results.map (fun r => r.checkType ++ "=" ++
        (match r.status with
         | CheckStatus.pending => "pending"
         | CheckStatus.passed => "passed"
         | CheckStatus.failed => "failed")))

/-- runComplianceSimulation from complianceService.ts. -/
def runComplianceSimulation (digest : String → String) (env : Env) (redis : RedisWorld)
    (userId transactionId : Nat) (amount : Rat) (currency : String) (memo : Option String)
    (w : WState) : WState × Except TransferError (List ComplianceResult) :=
  let w1 := (simulateKyc userId w).1
  let kycResult := (simulateKyc userId w).2
  let pAml := simulateAml digest env redis userId transactionId amount currency memo w1
  match pAml.2 with
  | Except.error e => (pAml.1, Except.error e)
  | Except.ok amlResult =>
      let results := [kycResult, amlResult]
      if env.nodeEnv ≠ "test" then
        (recordAuditEventW digest "compliance.simulation.completed"
          (serializeComplianceAudit transactionId userId results) pAml.1, Except.ok results)
      else (pAml.1, Except.ok results)

/- ===================== C8: alert dispatch behaviour ===================== -/

/-- Amended C8: raiseRiskAlert persists the alert and appends the matching
audit entry unconditionally (both precede the publish step), and the publish
failure modes handled inside publishToStream - streams disabled, or no client
obtainable - are swallowed, in which case the persisted alert is returned.
(The original claim fails: a rejected xAdd itself is not caught and surfaces;
see the counterexample.) -/
theorem raiseRiskAlert_persists_and_audits (digest : String → String) (env : Env)
    (redis : RedisWorld) (accountId : Option Nat) (alertType : String) (severity : Severity)
    (details : String) (w : WState) :
    (raiseRiskAlert digest env redis accountId alertType severity details w).1.db.riskAlerts =
      w.db.riskAlerts ++ [raisedAlert w accountId alertType severity details] ∧
    (raiseRiskAlert digest env redis accountId alertType severity details w).1.db.auditLog =
      recordAuditEvent digest "risk.alert.raised"
        (serializeAlertAudit (raisedAlert w accountId alertType severity details))
        w.db.auditLog ∧
    ((env.enableRedisStreams = false ∨ redis.connectOk = false ∨ redis.xAddOk = true) →
      (raiseRiskAlert digest env redis accountId alertType severity details w).2 =
        Except.ok (raisedAlert w accountId alertType severity details)) := by
  have hpub : (env.enableRedisStreams = false ∨ redis.connectOk = false ∨
      redis.xAddOk = true) →
      ∀ stream payload, publishToStream env redis stream payload = Except.ok () := by
    intro hcases stream payload
    unfold publishToStream
    rcases hcases with hs | hc | hx
    · simp [hs]
    · simp [hc]
    · simp [hx]
  refine ⟨rfl, rfl, ?_⟩
  intro hcases
  show (match publishToStream env redis "risk-alerts" _ with
    | Except.ok _ => Except.ok (raisedAlert w accountId alertType severity details)
    | Except.error m => Except.error (TransferError.publishFailed m)) = _
  rw [hpub hcases]

/-- Environment with redis streams enabled, used by the dispatcher scenarios. -/
def streamsEnv : Env :=
  { nodeEnv := "production", enableRedisStreams := true, vaultAddr := "", vaultToken := "",
    rsaPublicKey := "pub", rsaPrivateKey := "priv" }

/-- A connected redis whose xAdd call rejects. -/
def xAddFailingRedis : RedisWorld := { connectOk := true, xAddOk := false }

/-- The empty database. -/
def emptyBank : BankState :=
  { accounts := [], transactions := [], auditLog := [], complianceChecks := [],
    riskMetrics := [], riskAnomalies := [], riskAlerts := [], seq := 0 }

/-- The idle world before a request. -/
def emptyWorld : WState := { db := emptyBank, trace := [], rng := 0 }

/-- C8 counterexample: with streams enabled, a client obtained, and xAdd
rejecting, raiseRiskAlert persists the alert yet returns the publish error to
its caller - publish failure is surfaced, contradicting the claim. -/
theorem raiseRiskAlert_publish_failure_surfaces :
    (raiseRiskAlert witnessDigest streamsEnv xAddFailingRedis none "aml_flag"
        Severity.critical "d" emptyWorld).2 =
      Except.error (TransferError.publishFailed
        "xAdd rejected on risk-alerts with 5 fields") ∧
    (raiseRiskAlert witnessDigest streamsEnv xAddFailingRedis none "aml_flag"
        Severity.critical "d" emptyWorld).1.db.riskAlerts =
      [raisedAlert emptyWorld none "aml_flag" Severity.critical "d"] :=
  ⟨rfl, rfl⟩

/-- A redis connection that getRedisClient fails to obtain. -/
def unreachableRedis : RedisWorld := { connectOk := false, xAddOk := false }

theorem raiseRiskAlert_persists_and_audits_witness :
    (raiseRiskAlert witnessDigest streamsEnv unreachableRedis none "aml_flag"
        Severity.critical "d" emptyWorld).2 =
      Except.ok (raisedAlert emptyWorld none "aml_flag" Severity.critical "d") ∧
    (raiseRiskAlert witnessDigest streamsEnv unreachableRedis none "aml_flag"
        Severity.critical "d" emptyWorld).1.db.riskAlerts =
      emptyWorld.db.riskAlerts ++
        [raisedAlert emptyWorld none "aml_flag" Severity.critical "d"] := by
  have h := raiseRiskAlert_persists_and_audits witnessDigest streamsEnv unreachableRedis
    none "aml_flag" Severity.critical "d" emptyWorld
  exact ⟨h.2.2 (Or.inr (Or.inl rfl)), h.1⟩

/- ===================== C5: AML decision ===================== -/

theorem simulateAml_ok_shape (digest : String → String) (env : Env) (redis : RedisWorld)
    (userId transactionId : Nat) (amount : Rat) (currency : String) (memo : Option String)
    (w w2 : WState) (res : ComplianceResult)
    (h : simulateAml digest env redis userId transactionId amount currency memo w =
      (w2, Except.ok res)) :
    res = { checkType := "aml-transaction",
            status := if (amlMemoMatch memo || decide (AML_THRESHOLD ≤ amount)) = true
              then CheckStatus.failed else CheckStatus.passed,
            rules := some { highValue := decide (AML_THRESHOLD ≤ amount),
                            memoPattern := amlMemoMatch memo } } := by
  unfold simulateAml at h
  dsimp only at h
  split at h
  next hflag =>
    split at h
    next =>
      split at h
      next => simp at h
      next =>
        simp only [Prod.mk.injEq, Except.ok.injEq] at h
        rw [← h.2, if_pos hflag]
    next =>
      simp only [Prod.mk.injEq, Except.ok.injEq] at h
      rw [← h.2, if_pos hflag]
  next hflag =>
    split at h
    next hcontra => exact absurd hcontra.1 (by decide)
    next =>
      simp only [Prod.mk.injEq, Except.ok.injEq] at h
      rw [← h.2, if_neg hflag]

/-- C5: the AML result fails exactly when the amount is at least 50000 or the
memo contains a high-risk keyword (case-insensitive); rulesTriggered records
exactly which rule fired; and the outcome is deterministic in the pair
(amount, memo): any two invocations agreeing on amount and memo - whatever
their user, transaction, currency, state, digest, environment or redis world -
produce the same status and the same rulesTriggered flags. -/
theorem simulateAml_spec (d1 d2 : String → String) (e1 e2 : Env) (r1 r2 : RedisWorld)
    (u1 u2 t1 t2 : Nat) (c1 c2 : String) (w1 w2 o1 o2 : WState) (amount : Rat)
    (memo : Option String) (res1 res2 : ComplianceResult)
    (h1 : simulateAml d1 e1 r1 u1 t1 amount c1 memo w1 = (o1, Except.ok res1))
    (h2 : simulateAml d2 e2 r2 u2 t2 amount c2 memo w2 = (o2, Except.ok res2)) :
    (res1.status = CheckStatus.failed ↔
      ((50000 : Rat) ≤ amount ∨ amlMemoMatch memo = true)) ∧
    res1.rules = some { highValue := decide ((50000 : Rat) ≤ amount),
                        memoPattern := amlMemoMatch memo } ∧
    res1.status = res2.status ∧ res1.rules = res2.rules := by
  have hs1 := simulateAml_ok_shape d1 e1 r1 u1 t1 amount c1 memo w1 o1 res1 h1
  have hs2 := simulateAml_ok_shape d2 e2 r2 u2 t2 amount c2 memo w2 o2 res2 h2
  subst hs1
  subst hs2
  refine ⟨?_, by simp [AML_THRESHOLD], rfl, rfl⟩
  by_cases hm : amlMemoMatch memo = true
  · simp [hm, AML_THRESHOLD]
  · by_cases hv : (50000 : Rat) ≤ amount
    · simp [hm, hv, AML_THRESHOLD]
    · simp [hm, hv, AML_THRESHOLD]

theorem simulateAml_spec_witness :
    (CheckStatus.failed = CheckStatus.failed ↔
      ((50000 : Rat) ≤ (60000 : Rat) ∨ amlMemoMatch (some "Offshore fund") = true)) := by
  have h := simulateAml_spec witnessDigest witnessDigest witnessCryptoEnv witnessCryptoEnv
    unreachableRedis unreachableRedis 1 2 10 20 "USD" "EUR" emptyWorld emptyWorld
    _ _ 60000 (some "Offshore fund") _ _ rfl rfl
  exact h.1

/- ============== Isolation forest (utils/isolationForest.ts) ============== -/

/-- One isolation tree: leaves store the size of their partition; internal
nodes store the partition size, the split attribute and the split value. -/
inductive ITree
  | leaf (size : Nat)
  | node (size : Nat) (splitAttr : Nat) (splitValue : Rat) (left right : ITree)
deriving Repr

/-- The Euler-Mascheroni constant literal 0.5772156649 of averagePathLength. -/
def eulerMascheroni : Rat := 5772156649 / 10000000000

/-- averagePathLength: the c(n) length-correction term, 0 for n at most 1. -/
def averagePathLength (O : Oracles) (n : Nat) : Rat :=
  if n ≤ 1 then 0
  else 2 * (O.ln ((n : Rat) - 1) + eulerMascheroni) - 2 * ((n : Rat) - 1) / (n : Rat)

/-- randomBetween: equal bounds return min without consuming randomness;
otherwise one uniform draw is consumed from the stream. -/
def randomBetween (O : Oracles) (lo hi : Rat) (i : Nat) : Rat × Nat :=
  if lo = hi then (lo, i) else (lo + O.rand i * (hi - lo), i + 1)

/-- Minimum of the sampled attribute values (Math.min over a non-empty list;
0 is never reached because callers guard the empty case). -/
def listMinQ : List Rat → Rat
  | [] => 0
  | v :: vs => vs.foldl min v

/-- Maximum of the sampled attribute values. -/
def listMaxQ : List Rat → Rat
  | [] => 0
  | v :: vs => vs.foldl max v

/-- buildTree from isolationForest.ts.  The fuel argument is the remaining
height budget heightLimit - currentDepth, so fuel 0 is the currentDepth >=
heightLimit leaf case; the randomness cursor is threaded explicitly. -/
def buildTree (O : Oracles) : Nat → List (List Rat) → Nat → ITree × Nat
  | 0, data, i => (ITree.leaf data.length, i)
  | fuel + 1, data, i =>
      if data.length ≤ 1 then (ITree.leaf data.length, i)
      else
        let dimension := (data.headD []).length
        if dimension = 0 then (ITree.leaf data.length, i)
        else
          let drawn := randomBetween O 0 (dimension : Rat) i
          let attrIdx := min (dimension - 1) drawn.1.floor.toNat
          let i1 := drawn.2
          let values := data.map (fun row => row.getD attrIdx 0)
          let mn := listMinQ values
          let mx := listMaxQ values
          if mn = mx then (ITree.leaf data.length, i1)
          else
            let split := randomBetween O mn mx i1
            let splitValue := split.1
            let i2 := split.2
            let leftData := data.filter (fun row => decide (row.getD attrIdx 0 < splitValue))
            let rightData := data.filter (fun row => !decide (row.getD attrIdx 0 < splitValue))
            let lt := buildTree O fuel (if leftData.length > 0 then leftData else data) i2
            let rt := buildTree O fuel (if rightData.length > 0 then rightData else data) lt.2
            (ITree.node data.length attrIdx splitValue lt.1 rt.1, rt.2)

/-- pathLength from isolationForest.ts: descend by comparing the sample
attribute to each split, add the length correction of the reached leaf. -/
def pathLength (O : Oracles) (sample : List Rat) : ITree → Rat
  | ITree.leaf size => averagePathLength O size
  | ITree.node _ attr split l r =>
      if sample.getD attr 0 < split then 1 + pathLength O sample l
      else 1 + pathLength O sample r

/-- One rejection-sampling iteration: draw an index below len, capped at
len - 1 (Math.min in the source, over Math.floor of randomBetween 0 len). -/
def sampleIndex (O : Oracles) (len : Nat) (i : Nat) : Nat × Nat :=
  let drawn := randomBetween O 0 (len : Rat) i
  (min (len - 1) drawn.1.floor.toNat, drawn.2)

/-- The while-loop of randomSample, bounded by fuel.  The source loop
terminates almost surely (it keeps drawing until size distinct indices are
found); the model returns the indices accumulated so far if fuel runs out. -/
def randomSampleGo (O : Oracles) (data : List (List Rat)) (size : Nat) :
    Nat → List Nat → List (List Rat) → Nat → List (List Rat) × Nat
  | 0, _, acc, i => (acc.reverse, i)
  | fuel + 1, used, acc, i =>
      if size ≤ acc.length then (acc.reverse, i)
      else
        let drawn := sampleIndex O data.length i
        let idx := drawn.1
        let i1 := drawn.2
        if used.contains idx then randomSampleGo O data size fuel used acc i1
        else randomSampleGo O data size fuel (idx :: used) (data.getD idx [] :: acc) i1

/-- randomSample from isolationForest.ts: the whole data set when it is small
enough, otherwise size distinct uniformly drawn rows. -/
def randomSample (O : Oracles) (data : List (List Rat)) (size : Nat) (i : Nat) :
    List (List Rat) × Nat :=
  if data.length ≤ size then (data, i)
  else randomSampleGo O data size (size * (data.length + 1) * 4 + 16) [] [] i

/-- The tree-building loop of IsolationForest.fit (Array.from of treeCount
trees, each over a fresh subsample).  Every rational is finite, so the
Number.isFinite sanitization of the source maps each value to itself. -/
def buildForestTrees (O : Oracles) (subsampleSize heightLimit : Nat)
    (data : List (List Rat)) : Nat → Nat → List ITree × Nat
  | 0, i => ([], i)
  | k + 1, i =>
      let sample := randomSample O data subsampleSize i
      let tree := buildTree O heightLimit sample.1 sample.2
      let rest := buildForestTrees O subsampleSize heightLimit data k tree.2
      (tree.1 :: rest.1, rest.2)

/-- IsolationForest.fit for a forest of treeCount trees with the given
subsample size; heightLimit is Math.ceil of log2 of the subsample size.
Returns the fitted trees (empty when the data or its dimension is empty) and
the advanced randomness cursor. -/
def isolationForestFit (O : Oracles) (treeCount subsampleSize : Nat)
    (data : List (List Rat)) (i : Nat) : List ITree × Nat :=
  if data.length = 0 then ([], i)
  else
    let heightLimit := Nat.clog 2 subsampleSize
    let dimension := (data.headD []).length
    let built := buildForestTrees O subsampleSize heightLimit data treeCount i
    if dimension = 0 then ([], built.2) else (built.1, built.2)

/-- IsolationForest.score: 0 on an unfitted forest, otherwise 2 to the power
of minus the mean path length over c(subsampleSize) (with the c-or-1 source
guard against a zero divisor).  Every rational is finite, so the final
Number.isFinite guard always takes the score branch. -/
def isolationForestScore (O : Oracles) (subsampleSize : Nat) (trees : List ITree)
    (sample : List Rat) : Rat :=
  if trees.length = 0 then 0
  else
    let path := (trees.map (pathLength O sample)).sum / (trees.length : Rat)
    let c := averagePathLength O subsampleSize
    let c1 := if c = 0 then 1 else c
    O.pow2 (-(path / c1))

/- ============== Risk metrics evaluator (riskMonitoringService.ts) ============== -/

def DETECTOR_VERSION : String := "iforest-1.0"
def OBSERVATION_WINDOW_DAYS : Nat := 90
def ANOMALY_THRESHOLD : Rat := 13 / 20

/-- The three metric accumulators and derived figures of computeMetrics.
The model keeps the field names of the source, with lossRat standing for
the loss ratio field. -/
structure Metrics where
  exposure : Rat
  leverage : Rat
  lossRat : Rat
deriving DecidableEq, Repr

/-- The loop body of computeMetrics over the accumulator triple
(totalDebits, totalCredits, rollingLoss). -/
def metricsStep (acc : Rat × Rat × Rat) (tx : Txn) : Rat × Rat × Rat :=
  let amount := |tx.amount|
  match tx.direction with
  | Direction.debit => (acc.1 + amount, acc.2.1, acc.2.2 + amount)
  | Direction.credit => (acc.1, acc.2.1 + amount, acc.2.2 - amount)

/-- computeMetrics from riskMonitoringService.ts. -/
def computeMetrics (accountBalance : Rat) (transactions : List Txn) : Metrics :=
  let acc := transactions.foldl metricsStep (0, 0, 0)
  let totalDebits := acc.1
  let totalCredits := acc.2.1
  let rollingLoss := acc.2.2
  let netOutflow := totalDebits - totalCredits
  { exposure := max 0 netOutflow
    leverage := totalDebits / max accountBalance 1
    lossRat := max 0 rollingLoss / max totalCredits 1 }

/-- buildFeatureVector from riskMonitoringService.ts: log of 1 plus the
absolute amount, the direction bit, the UTC hour fraction (the hour of the timestamp
is modelled as createdAt modulo 24), the counterparty-presence bit, and
the memo length. -/
def buildFeatureVector (O : Oracles) (t : Txn) : List Rat :=
  [O.ln (|t.amount| + 1),
   (if t.direction = Direction.debit then 1 else 0),
   ((t.createdAt % 24 : Nat) : Rat) / 24,
   (if t.counterpartyAccountId.isSome then 1 else 0),
   ((match t.memo with
     | some m => m.length
     | none => 0 : Nat) : Rat)]

/-- The RiskEvaluationResult returned by evaluateAccountRisk (lossRat models
the loss ratio field of the source). -/
structure RiskEvaluationResult where
  exposure : Rat
  leverage : Rat
  lossRat : Rat
  anomalyScore : Option Rat
deriving DecidableEq, Repr

/-- Details payload of an anomaly alert. -/
def serializeAnomalyAlert (score : Rat) (transactionId : Nat) : String :=
  "score:" ++ ratStr score ++ ";threshold:" ++ ratStr ANOMALY_THRESHOLD ++
    ";transactionId:" ++ toString transactionId

/-- detectAnomaly from riskMonitoringService.ts: skip with no score on fewer
than 5 transactions; otherwise fit the forest over the feature vectors, score
the most recent transaction, and on a score at or above the threshold persist
an anomaly event and (outside test) raise a high-severity alert. -/
def detectAnomaly (O : Oracles) (env : Env) (redis : RedisWorld) (accountId : Nat)
    (transactions : List Txn) (w : WState) : WState × Except TransferError (Option Rat) :=
  if transactions.length < 5 then (w, Except.ok none)
  else
    let features := transactions.map (buildFeatureVector O)
    let ssize := min 128 transactions.length
    let fit := isolationForestFit O 75 ssize features w.rng
    let w1 : WState := { w with rng := fit.2 }
    let latestFeature := features.headD []
    let score := isolationForestScore O ssize fit.1 latestFeature
    if ANOMALY_THRESHOLD ≤ score then
      match transactions.head? with
      | none => (w1, Except.ok (some score))
      | some latest =>
          let w2 := insertAnomalyEventW w1 latest.id accountId score ANOMALY_THRESHOLD
            DETECTOR_VERSION
          if env.nodeEnv ≠ "test" then
            let p := raiseRiskAlert O.digest env redis (some accountId) "anomaly_detection"
              Severity.high (serializeAnomalyAlert score latest.id) w2
            match p.2 with
            | Except.error e => (p.1, Except.error e)
            | Except.ok _ => (p.1, Except.ok (some score))
          else (w2, Except.ok (some score))
    else (w1, Except.ok (some score))

/-- One guarded threshold alert of checkThresholds: raise when the condition
holds, otherwise leave the state untouched. -/
def guardedRaise (digest : String → String) (env : Env) (redis : RedisWorld)
    (cond : Prop) [Decidable cond] (accountId : Option Nat) (alertType : String)
    (severity : Severity) (details : String) (w : WState) :
    WState × Except TransferError Unit :=
  if cond then
    let p := raiseRiskAlert digest env redis accountId alertType severity details w
    (p.1, p.2.map (fun _ => ()))
  else (w, Except.ok ())

/-- checkThresholds from riskMonitoringService.ts: the three threshold alerts,
each suppressed in the test environment, raised in source order. -/
def checkThresholds (digest : String → String) (env : Env) (redis : RedisWorld)
    (accountId : Nat) (m : Metrics) (accountBalance : Rat) (w : WState) :
    WState × Except TransferError Unit :=
  let r1 := guardedRaise digest env redis (2 < m.leverage ∧ env.nodeEnv ≠ "test")
    (some accountId) "leverage_threshold" Severity.high
    ("leverage:" ++ ratStr m.leverage ++ ";threshold:2") w
  match r1.2 with
  | Except.error e => (r1.1, Except.error e)
  | Except.ok _ =>
      let r2 := guardedRaise digest env redis
        ((1 : Rat) / 10 < m.lossRat ∧ env.nodeEnv ≠ "test") (some accountId)
        "loss_threshold" Severity.medium
        ("lossRatio:" ++ ratStr m.lossRat ++ ";threshold:1/10") r1.1
      match r2.2 with
      | Except.error e => (r2.1, Except.error e)
      | Except.ok _ =>
          guardedRaise digest env redis
            (accountBalance * ((1 : Rat) / 2) < m.exposure ∧ 0 < m.exposure ∧
              env.nodeEnv ≠ "test") (some accountId) "exposure_threshold" Severity.medium
            ("exposure:" ++ ratStr m.exposure ++ ";balance:" ++ ratStr accountBalance) r2.1

/-- evaluateAccountRisk from riskMonitoringService.ts: look the account up,
compute the metrics over the most recent 200 transactions, persist one
RiskMetricSnapshot tagged with the 90-day window, raise threshold alerts,
run anomaly detection, and return the combined result. -/
def evaluateAccountRisk (O : Oracles) (env : Env) (redis : RedisWorld) (accountId : Nat)
    (w : WState) : WState × Except TransferError RiskEvaluationResult :=
  match findAccount w.db.accounts accountId with
  | none => (w, Except.error (TransferError.riskNotFound accountId))
  | some account =>
      let transactions := listTransactionsForAccount w.db accountId 200
      let m := computeMetrics account.balance transactions
      let w1 := insertRiskMetricW w accountId m.exposure m.leverage m.lossRat
        OBSERVATION_WINDOW_DAYS
      let pct := checkThresholds O.digest env redis accountId m account.balance w1
      match pct.2 with
      | Except.error e => (pct.1, Except.error e)
      | Except.ok _ =>
          let pda := detectAnomaly O env redis accountId transactions pct.1
          match pda.2 with
          | Except.error e => (pda.1, Except.error e)
          | Except.ok score =>
              (pda.1, Except.ok { exposure := m.exposure, leverage := m.leverage,
                                  lossRat := m.lossRat, anomalyScore := score })

/- ============== Ledger transfer orchestrator (transactionService.ts) ============== -/

/-- The requester identity attached by the auth middleware. -/
structure AuthenticatedUser where
  id : Nat
  role : Role
deriving DecidableEq, Repr

/-- The transfer request body; validationErrors models the express-validator
result attached to the request by the validation chain of the route. -/
structure TransferRequest where
  sourceAccountId : Nat
  destinationAccountId : Nat
  amount : Rat
  currency : String
  memo : Option String
  validationErrors : List String
deriving DecidableEq, Repr

/-- The logical payload handed to encryptPayload before the transaction. -/
structure TransferPayload where
  sourceAccountId : Nat
  destinationAccountId : Nat
  amount : Rat
  currency : String
  memo : Option String
  createdBy : Nat
deriving DecidableEq, Repr

/-- The success value of createTransfer. -/
structure TransferSuccess where
  debit : Txn
  credit : Txn
  encryptedPayload : EncryptedPayload
  compliance : List ComplianceResult
  sourceRisk : RiskEvaluationResult
  destinationRisk : RiskEvaluationResult
deriving Repr

/-- The outcome of one createTransfer call: the committed database state (the
original state of the caller when the transaction rolled back), the full event
trace in program order, and the result or error. -/
structure TransferOutcome where
  db : BankState
  trace : List Ev
  result : Except TransferError TransferSuccess
deriving Repr

/-- The audit payload of a transfer event. -/
def serializeTransferAudit (debitId creditId sourceAccountId destinationAccountId : Nat)
    (amount : Rat) (currency : String) (createdBy : Nat) : String :=
  "debitTransactionId:" ++ toString debitId ++ ";creditTransactionId:" ++ toString creditId ++
    ";sourceAccountId:" ++ toString sourceAccountId ++ ";destinationAccountId:" ++
    toString destinationAccountId ++ ";amount:" ++ ratStr amount ++ ";currency:" ++
    currency ++ ";createdBy:" ++ toString createdBy

/-- The body of the db.withTransaction callback of createTransfer: lock both
accounts, check existence, ownership, currency and balance, mutate both
balances, insert the debit and credit rows, append the audit entry, run the
compliance simulation, and evaluate risk for both accounts. -/
def createTransferTxnBody (O : Oracles) (env : Env) (redis : RedisWorld)
    (serializedPayload : String) (req : TransferRequest) (requester : AuthenticatedUser)
    (w0 : WState) :
    WState × Except TransferError
      (Txn × Txn × List ComplianceResult × RiskEvaluationResult × RiskEvaluationResult) :=
  let l1 := findAccountByIdForUpdate w0 req.sourceAccountId
  let l2 := findAccountByIdForUpdate l1.1 req.destinationAccountId
  let w2 := l2.1
  match l1.2, l2.2 with
  | some sourceAccount, some destinationAccount =>
      if requester.role = Role.client ∧ requester.id ≠ sourceAccount.userId then
        (w2, Except.error TransferError.forbidden)
      else if sourceAccount.currency ≠ req.currency ∨
          destinationAccount.currency ≠ req.currency then
        (w2, Except.error TransferError.currencyMismatch)
      else if sourceAccount.balance < req.amount then
        (w2, Except.error TransferError.insufficientFunds)
      else
        let w3 := updateBalanceW w2 req.sourceAccountId (-req.amount)
        let w4 := updateBalanceW w3 req.destinationAccountId req.amount
        let pd := insertTransactionW w4 req.sourceAccountId (some req.destinationAccountId)
          req.amount req.currency Direction.debit req.memo serializedPayload
        let debit := pd.2
        let pc := insertTransactionW pd.1 req.destinationAccountId (some req.sourceAccountId)
          req.amount req.currency Direction.credit req.memo serializedPayload
        let credit := pc.2
        let w7 := recordAuditEventW O.digest "transaction.transfer"
          (serializeTransferAudit debit.id credit.id req.sourceAccountId
            req.destinationAccountId req.amount req.currency requester.id) pc.1
        let pcs := runComplianceSimulation O.digest env redis sourceAccount.userId debit.id
          req.amount req.currency req.memo w7
        match pcs.2 with
        | Except.error e => (pcs.1, Except.error e)
        | Except.ok compliance =>
            let psr := evaluateAccountRisk O env redis req.sourceAccountId pcs.1
            match psr.2 with
            | Except.error e => (psr.1, Except.error e)
            | Except.ok sourceRisk =>
                let pdr := evaluateAccountRisk O env redis req.destinationAccountId psr.1
                match pdr.2 with
                | Except.error e => (pdr.1, Except.error e)
                | Except.ok destinationRisk =>
                    (pdr.1, Except.ok (debit, credit, compliance, sourceRisk, destinationRisk))
  | _, _ => (w2, Except.error TransferError.accountNotFound)

/-- createTransfer from transactionService.ts: request validation, the
same-account and positive-amount checks, payload encryption (outside the
transaction), then the atomic transaction body; any error inside the body
rolls the database back to the state of the caller, while the trace keeps the
events that were attempted. -/
def createTransfer (O : Oracles) (env : Env) (redis : RedisWorld)
    (P : CryptoPrims TransferPayload) (serializeEnvelope : EncryptedPayload → String)
    (aesKey iv : List Nat) (req : TransferRequest) (requester : AuthenticatedUser)
    (st : BankState) : TransferOutcome :=
  if req.validationErrors ≠ [] then
    { db := st, trace := [],
      result := Except.error (TransferError.validationFailed req.validationErrors) }
  else if req.sourceAccountId = req.destinationAccountId then
    { db := st, trace := [], result := Except.error TransferError.sameAccount }
  else if req.amount ≤ 0 then
    { db := st, trace := [], result := Except.error TransferError.nonPositiveAmount }
  else
    match encryptPayload P env
        { sourceAccountId := req.sourceAccountId,
          destinationAccountId := req.destinationAccountId, amount := req.amount,
          currency := req.currency, memo := req.memo, createdBy := requester.id }
        aesKey iv with
    | Except.error e =>
        { db := st, trace := [], result := Except.error (TransferError.encryptionFailed e) }
    | Except.ok envp =>
        let body := createTransferTxnBody O env redis (serializeEnvelope envp) req requester
          { db := st, trace := [], rng := 0 }
        match body.2 with
        | Except.error e => { db := st, trace := body.1.trace, result := Except.error e }
        | Except.ok out =>
            { db := body.1.db, trace := body.1.trace,
              result := Except.ok
                { debit := out.1, credit := out.2.1, encryptedPayload := envp,
                  compliance := out.2.2.1, sourceRisk := out.2.2.2.1,
                  destinationRisk := out.2.2.2.2 } }

/- ============== Accounts-preservation lemmas ============== -/

theorem accounts_raiseRiskAlert (digest : String → String) (env : Env) (redis : RedisWorld)
    (accountId : Option Nat) (alertType : String) (severity : Severity) (details : String)
    (w : WState) :
    ((raiseRiskAlert digest env redis accountId alertType severity details w).1).db.accounts =
      w.db.accounts := rfl

theorem accounts_guardedRaise (digest : String → String) (env : Env) (redis : RedisWorld)
    (cond : Prop) [Decidable cond] (accountId : Option Nat) (alertType : String)
    (severity : Severity) (details : String) (w : WState) :
    ((guardedRaise digest env redis cond accountId alertType severity details w).1).db.accounts =
      w.db.accounts := by
  unfold guardedRaise
  split <;> rfl

theorem accounts_simulateAml (digest : String → String) (env : Env) (redis : RedisWorld)
    (userId transactionId : Nat) (amount : Rat) (currency : String) (memo : Option String)
    (w : WState) :
    ((simulateAml digest env redis userId transactionId amount currency memo w).1).db.accounts =
      w.db.accounts := by
  unfold simulateAml
  dsimp only
  split
  · split
    · split <;> rfl
    · rfl
  · rfl

theorem accounts_runComplianceSimulation (digest : String → String) (env : Env)
    (redis : RedisWorld) (userId transactionId : Nat) (amount : Rat) (currency : String)
    (memo : Option String) (w : WState) :
    ((runComplianceSimulation digest env redis userId transactionId amount currency memo
      w).1).db.accounts = w.db.accounts := by
  unfold runComplianceSimulation
  dsimp only
  split
  · exact accounts_simulateAml digest env redis userId transactionId amount currency memo _
  · split
    · exact accounts_simulateAml digest env redis userId transactionId amount currency memo _
    · exact accounts_simulateAml digest env redis userId transactionId amount currency memo _

theorem accounts_checkThresholds (digest : String → String) (env : Env) (redis : RedisWorld)
    (accountId : Nat) (m : Metrics) (accountBalance : Rat) (w : WState) :
    ((checkThresholds digest env redis accountId m accountBalance w).1).db.accounts =
      w.db.accounts := by
  unfold checkThresholds
  dsimp only
  split
  · simp only [accounts_guardedRaise]
  · split
    · simp only [accounts_guardedRaise]
    · simp only [accounts_guardedRaise]

theorem accounts_detectAnomaly (O : Oracles) (env : Env) (redis : RedisWorld)
    (accountId : Nat) (transactions : List Txn) (w : WState) :
    ((detectAnomaly O env redis accountId transactions w).1).db.accounts = w.db.accounts := by
  unfold detectAnomaly
  dsimp only
  split
  · rfl
  · split
    · split
      · rfl
      · split
        · split <;> rfl
        · rfl
    · rfl

theorem accounts_insertRiskMetricW (w : WState) (accountId : Nat)
    (exposure leverage lossRat : Rat) (windowInDays : Nat) :
    (insertRiskMetricW w accountId exposure leverage lossRat windowInDays).db.accounts =
      w.db.accounts := rfl

theorem accounts_evaluateAccountRisk (O : Oracles) (env : Env) (redis : RedisWorld)
    (accountId : Nat) (w : WState) :
    ((evaluateAccountRisk O env redis accountId w).1).db.accounts = w.db.accounts := by
  unfold evaluateAccountRisk
  dsimp only
  split
  · rfl
  · split
    · simp only [accounts_checkThresholds, accounts_insertRiskMetricW]
    · split
      · simp only [accounts_detectAnomaly, accounts_checkThresholds,
          accounts_insertRiskMetricW]
      · simp only [accounts_detectAnomaly, accounts_checkThresholds,
          accounts_insertRiskMetricW]

/- ============== Account lookup and balance update lemmas ============== -/

theorem findAccount_updateBalance_self (l : List Account) (accountId : Nat) (delta : Rat) :
    findAccount (updateBalance l accountId delta) accountId =
      (findAccount l accountId).map (fun a => { a with balance := a.balance + delta }) := by
  induction l with
  | nil => rfl
  | cons a l ih =>
      unfold findAccount updateBalance
      unfold findAccount updateBalance at ih
      by_cases h : a.id = accountId
      · simp [List.find?, h]
      · simp only [List.map_cons]
        rw [if_neg (by simpa using h)]
        simp only [List.find?]
        rw [show (a.id == accountId) = false from by simpa using h]
        exact ih

theorem findAccount_updateBalance_other (l : List Account) (accountId other : Nat)
    (delta : Rat) (h : other ≠ accountId) :
    findAccount (updateBalance l accountId delta) other = findAccount l other := by
  induction l with
  | nil => rfl
  | cons a l ih =>
      unfold findAccount updateBalance
      unfold findAccount updateBalance at ih
      by_cases ha : a.id = accountId
      · simp only [List.map_cons]
        rw [if_pos (by simpa using ha)]
        simp only [List.find?]
        rw [show (a.id == other) = false from by
          simp only [beq_eq_false_iff_ne]
          rw [ha]
          exact fun hcontra => h hcontra.symm]
        exact ih
      · simp only [List.map_cons]
        rw [if_neg (by simpa using ha)]
        simp only [List.find?]
        cases hb : (a.id == other) with
        | true => rfl
        | false => exact ih

theorem findAccountByIdForUpdate_found (w : WState) (accountId : Nat) (acc : Account)
    (h : findAccount w.db.accounts accountId = some acc) :
    findAccountByIdForUpdate w accountId =
      ({ w with trace := w.trace ++ [Ev.lockAcquired accountId] }, some acc) := by
  unfold findAccountByIdForUpdate
  rw [h]

/-- C2: when the source balance is below the requested amount (with the
request reaching that check: validation passed, distinct accounts, positive
amount, payload encrypted, both accounts found, ownership and currency checks
passed), createTransfer fails with the insufficient-funds error, the returned
state is exactly the state of the caller (the transaction rolls back atomically),
and the trace shows that only the two row locks happened - no balance update,
no transaction row, no audit entry, no compliance row and no risk row. -/
theorem createTransfer_insufficient_funds (O : Oracles) (env : Env) (redis : RedisWorld)
    (P : CryptoPrims TransferPayload) (serializeEnvelope : EncryptedPayload → String)
    (aesKey iv : List Nat) (req : TransferRequest) (requester : AuthenticatedUser)
    (st : BankState) (sa da : Account) (envp : EncryptedPayload)
    (hval : req.validationErrors = [])
    (hneq : req.sourceAccountId ≠ req.destinationAccountId)
    (hamt : 0 < req.amount)
    (henc : encryptPayload P env
      { sourceAccountId := req.sourceAccountId,
        destinationAccountId := req.destinationAccountId, amount := req.amount,
        currency := req.currency, memo := req.memo, createdBy := requester.id }
      aesKey iv = Except.ok envp)
    (hs : findAccount st.accounts req.sourceAccountId = some sa)
    (hd : findAccount st.accounts req.destinationAccountId = some da)
    (hrole : ¬(requester.role = Role.client ∧ requester.id ≠ sa.userId))
    (hcur : sa.currency = req.currency ∧ da.currency = req.currency)
    (hbal : sa.balance < req.amount) :
    createTransfer O env redis P serializeEnvelope aesKey iv req requester st =
      { db := st,
        trace := [Ev.lockAcquired req.sourceAccountId,
                  Ev.lockAcquired req.destinationAccountId],
        result := Except.error TransferError.insufficientFunds } := by
  unfold createTransfer
  rw [if_neg (by simp [hval]), if_neg hneq, if_neg (not_le.mpr hamt), henc]
  dsimp only
  unfold createTransferTxnBody
  rw [findAccountByIdForUpdate_found _ _ _ hs]
  dsimp only
  rw [findAccountByIdForUpdate_found _ _ _ hd]
  dsimp only
  rw [if_neg hrole,
    if_neg (show ¬(sa.currency ≠ req.currency ∨ da.currency ≠ req.currency) by
      simp [hcur.1, hcur.2]),
    if_pos hbal]
  rfl

/-- Amended C9: a client transferring from an account it does not own fails
with ForbiddenError, but only after the FOR UPDATE row locks on both the
source and the destination account have been acquired (the ownership check
runs after both lookups); no balance mutation, row insert or audit append
happens, and the transaction rolls back, releasing the locks.  (The original
claim - failure before any destination lock - is refuted by the
counterexample.) -/
theorem createTransfer_forbidden_after_locks (O : Oracles) (env : Env) (redis : RedisWorld)
    (P : CryptoPrims TransferPayload) (serializeEnvelope : EncryptedPayload → String)
    (aesKey iv : List Nat) (req : TransferRequest) (requester : AuthenticatedUser)
    (st : BankState) (sa da : Account) (envp : EncryptedPayload)
    (hval : req.validationErrors = [])
    (hneq : req.sourceAccountId ≠ req.destinationAccountId)
    (hamt : 0 < req.amount)
    (henc : encryptPayload P env
      { sourceAccountId := req.sourceAccountId,
        destinationAccountId := req.destinationAccountId, amount := req.amount,
        currency := req.currency, memo := req.memo, createdBy := requester.id }
      aesKey iv = Except.ok envp)
    (hs : findAccount st.accounts req.sourceAccountId = some sa)
    (hd : findAccount st.accounts req.destinationAccountId = some da)
    (hrole : requester.role = Role.client)
    (howner : requester.id ≠ sa.userId) :
    createTransfer O env redis P serializeEnvelope aesKey iv req requester st =
      { db := st,
        trace := [Ev.lockAcquired req.sourceAccountId,
                  Ev.lockAcquired req.destinationAccountId],
        result := Except.error TransferError.forbidden } := by
  unfold createTransfer
  rw [if_neg (by simp [hval]), if_neg hneq, if_neg (not_le.mpr hamt), henc]
  dsimp only
  unfold createTransferTxnBody
  rw [findAccountByIdForUpdate_found _ _ _ hs]
  dsimp only
  rw [findAccountByIdForUpdate_found _ _ _ hd]
  dsimp only
  rw [if_pos ⟨hrole, howner⟩]
  rfl

/- ============== Concrete transfer fixtures ============== -/

/-- Two accounts: account 1 of user 10 holding 100 USD, account 2 of user 20. -/
def wAccounts : List Account :=
  [{ id := 1, userId := 10, balance := 100, currency := "USD" },
   { id := 2, userId := 20, balance := 0, currency := "USD" }]

def wBank : BankState := { emptyBank with accounts := wAccounts }

/-- A transfer of 250 from account 1 to account 2 (more than the balance). -/
def wReqBig : TransferRequest :=
  { sourceAccountId := 1, destinationAccountId := 2, amount := 250, currency := "USD",
    memo := none, validationErrors := [] }

/-- A transfer of 50 from account 1 to account 2. -/
def wReqSmall : TransferRequest :=
  { sourceAccountId := 1, destinationAccountId := 2, amount := 50, currency := "USD",
    memo := none, validationErrors := [] }

/-- The owner of account 1, a client. -/
def wOwner : AuthenticatedUser := { id := 10, role := Role.client }

/-- A client who does not own account 1. -/
def wAttacker : AuthenticatedUser := { id := 99, role := Role.client }

/-- Concrete oracles; the numeric oracles are irrelevant on paths whose windows
hold fewer than five transactions. -/
def wOracles : Oracles :=
  { digest := witnessDigest, ln := fun _ => 0, pow2 := fun _ => 0, rand := fun _ => 0 }

def wSerEnv : EncryptedPayload → String := fun _ => "envelope"

/-- Concrete primitives over the transfer payload type. -/
def wTransferPrims : CryptoPrims TransferPayload :=
  { ser := fun _ => [0], parse := fun _ => none, aesEnc := fun _ _ m => m,
    aesDec := fun _ _ m => m, gcmTag := fun _ _ m => m, rsaEnc := fun _ k => k,
    rsaDec := fun _ c => c, b64e := fun _ => "b", b64d := fun _ => [],
    vaultWrap := fun _ => Except.error "u", vaultUnwrap := fun _ => Except.error "u" }

theorem createTransfer_insufficient_funds_witness :
    createTransfer wOracles witnessCryptoEnv unreachableRedis wTransferPrims wSerEnv [] []
      wReqBig wOwner wBank =
      { db := wBank,
        trace := [Ev.lockAcquired 1, Ev.lockAcquired 2],
        result := Except.error TransferError.insufficientFunds } :=
  createTransfer_insufficient_funds wOracles witnessCryptoEnv unreachableRedis wTransferPrims
    wSerEnv [] [] wReqBig wOwner wBank _ _ _ rfl (by decide) (by decide) rfl rfl rfl
    (by decide) ⟨rfl, rfl⟩ (by decide)

theorem createTransfer_forbidden_after_locks_witness :
    createTransfer wOracles witnessCryptoEnv unreachableRedis wTransferPrims wSerEnv [] []
      wReqSmall wAttacker wBank =
      { db := wBank,
        trace := [Ev.lockAcquired 1, Ev.lockAcquired 2],
        result := Except.error TransferError.forbidden } :=
  createTransfer_forbidden_after_locks wOracles witnessCryptoEnv unreachableRedis
    wTransferPrims wSerEnv [] [] wReqSmall wAttacker wBank _ _ _ rfl (by decide) (by decide)
    rfl rfl rfl rfl (by decide)

/-- C9 counterexample: on a concrete request by a client who does not own the
source account, createTransfer does fail with ForbiddenError, but the trace
shows the lock on the destination account was acquired before the failure -
the claim that the failure precedes any destination lock is false. -/
theorem createTransfer_forbidden_lock_counterexample :
    (createTransfer wOracles witnessCryptoEnv unreachableRedis wTransferPrims wSerEnv [] []
      wReqSmall wAttacker wBank).result = Except.error TransferError.forbidden ∧
    Ev.lockAcquired 2 ∈
      (createTransfer wOracles witnessCryptoEnv unreachableRedis wTransferPrims wSerEnv [] []
        wReqSmall wAttacker wBank).trace :=
  ⟨rfl, by decide⟩

theorem accounts_findAccountByIdForUpdate (w : WState) (accountId : Nat) :
    ((findAccountByIdForUpdate w accountId).1).db.accounts = w.db.accounts := by
  unfold findAccountByIdForUpdate
  split <;> rfl

theorem accounts_updateBalanceW (w : WState) (accountId : Nat) (delta : Rat) :
    (updateBalanceW w accountId delta).db.accounts =
      updateBalance w.db.accounts accountId delta := rfl

theorem accounts_insertTransactionW (w : WState) (accountId : Nat)
    (counterpartyAccountId : Option Nat) (amount : Rat) (currency : String)
    (direction : Direction) (memo : Option String) (encryptedPayload : String) :
    ((insertTransactionW w accountId counterpartyAccountId amount currency direction memo
      encryptedPayload).1).db.accounts = w.db.accounts := rfl

theorem accounts_recordAuditEventW (digest : String → String) (eventType payload : String)
    (w : WState) :
    (recordAuditEventW digest eventType payload w).db.accounts = w.db.accounts := rfl

theorem accounts_createTransferTxnBody_cases (O : Oracles) (env : Env) (redis : RedisWorld)
    (serializedPayload : String) (req : TransferRequest) (requester : AuthenticatedUser)
    (w0 : WState) :
    (∃ e, (createTransferTxnBody O env redis serializedPayload req requester w0).2 =
      Except.error e) ∨
    (createTransferTxnBody O env redis serializedPayload req requester w0).1.db.accounts =
      updateBalance (updateBalance w0.db.accounts req.sourceAccountId (-req.amount))
        req.destinationAccountId req.amount := by
  unfold createTransferTxnBody
  dsimp only
  split
  · split
    · exact Or.inl ⟨_, rfl⟩
    · split
      · exact Or.inl ⟨_, rfl⟩
      · split
        · exact Or.inl ⟨_, rfl⟩
        · split
          · exact Or.inl ⟨_, rfl⟩
          · split
            · exact Or.inl ⟨_, rfl⟩
            · split
              · exact Or.inl ⟨_, rfl⟩
              · right
                simp only [accounts_evaluateAccountRisk, accounts_runComplianceSimulation,
                  accounts_recordAuditEventW, accounts_insertTransactionW,
                  accounts_updateBalanceW, accounts_findAccountByIdForUpdate]
  · exact Or.inl ⟨_, rfl⟩

/-- On the success path, the net effect of the transaction body on the accounts
table is exactly the two balance updates: source decremented, destination
incremented. -/
theorem accounts_createTransferTxnBody_ok (O : Oracles) (env : Env) (redis : RedisWorld)
    (serializedPayload : String) (req : TransferRequest) (requester : AuthenticatedUser)
    (w0 : WState)
    (out : Txn × Txn × List ComplianceResult × RiskEvaluationResult × RiskEvaluationResult)
    (hok : (createTransferTxnBody O env redis serializedPayload req requester w0).2 =
      Except.ok out) :
    (createTransferTxnBody O env redis serializedPayload req requester w0).1.db.accounts =
      updateBalance (updateBalance w0.db.accounts req.sourceAccountId (-req.amount))
        req.destinationAccountId req.amount := by
  rcases accounts_createTransferTxnBody_cases O env redis serializedPayload req requester w0
    with ⟨e, he⟩ | h
  · rw [he] at hok
    exact absurd hok (by simp)
  · exact h

/-- C1: for every transfer that commits, the balance of the source account
decreases by exactly the transfer amount and the balance of the destination
account increases by exactly the transfer amount; balances are exact
rationals, so the equalities hold exactly (in particular to 4 decimal digits,
the scale of the NUMERIC(20, 4) balance column). -/
theorem createTransfer_balances (O : Oracles) (env : Env) (redis : RedisWorld)
    (P : CryptoPrims TransferPayload) (serializeEnvelope : EncryptedPayload → String)
    (aesKey iv : List Nat) (req : TransferRequest) (requester : AuthenticatedUser)
    (st : BankState) (sa da : Account) (out : TransferSuccess)
    (hs : findAccount st.accounts req.sourceAccountId = some sa)
    (hd : findAccount st.accounts req.destinationAccountId = some da)
    (hok : (createTransfer O env redis P serializeEnvelope aesKey iv req requester st).result =
      Except.ok out) :
    (findAccount (createTransfer O env redis P serializeEnvelope aesKey iv req requester
        st).db.accounts req.sourceAccountId).map (fun a => a.balance) =
      some (sa.balance - req.amount) ∧
    (findAccount (createTransfer O env redis P serializeEnvelope aesKey iv req requester
        st).db.accounts req.destinationAccountId).map (fun a => a.balance) =
      some (da.balance + req.amount) := by
  unfold createTransfer at hok ⊢
  split at hok
  next hv => simp at hok
  next hv =>
    rw [if_neg hv]
    split at hok
    next hsame => simp at hok
    next hsame =>
      rw [if_neg hsame]
      split at hok
      next hneg => simp at hok
      next hneg =>
        rw [if_neg hneg]
        split at hok
        next henc => simp at hok
        next envp henc =>
          dsimp only at hok ⊢
          split at hok
          next heqb => simp at hok
          next out2 heqb =>
            dsimp only
            rw [accounts_createTransferTxnBody_ok O env redis (serializeEnvelope envp) req
              requester { db := st, trace := [], rng := 0 } out2 heqb]
            constructor
            · rw [findAccount_updateBalance_other _ _ _ _ hsame,
                findAccount_updateBalance_self]
              show ((findAccount st.accounts req.sourceAccountId).map _).map _ = _
              rw [hs]
              simp [sub_eq_add_neg]
            · rw [findAccount_updateBalance_self,
                findAccount_updateBalance_other _ _ _ _ (Ne.symm hsame)]
              show ((findAccount st.accounts req.destinationAccountId).map _).map _ = _
              rw [hd]
              simp

/- Batteries marks the rational arithmetic operations irreducible for the
elaborator; the concrete witnesses below evaluate the pipeline on literal
states, so restore default reducibility for them locally. -/
attribute [local semireducible] Rat.mul Rat.add Rat.sub Rat.inv

/-- The success value of the concrete committed transfer of 50 from account 1
to account 2. -/
def wOut : TransferSuccess :=
  { debit := { id := 0, accountId := 1, counterpartyAccountId := some 2, amount := 50,
               currency := "USD", direction := Direction.debit, memo := none,
               encryptedPayload := "envelope", createdAt := 0 },
    credit := { id := 1, accountId := 2, counterpartyAccountId := some 1, amount := 50,
                currency := "USD", direction := Direction.credit, memo := none,
                encryptedPayload := "envelope", createdAt := 1 },
    encryptedPayload := { encryptedKey := "b", iv := "b", authTag := "b", ciphertext := "b",
                          vaultCiphertext := some "b" },
    compliance := [{ checkType := "kyc-profile", status := CheckStatus.passed, rules := none },
                   { checkType := "aml-transaction", status := CheckStatus.passed,
                     rules := some { highValue := false, memoPattern := false } }],
    sourceRisk := { exposure := 50, leverage := 1, lossRat := 50, anomalyScore := none },
    destinationRisk := { exposure := 0, leverage := 0, lossRat := 0, anomalyScore := none } }

theorem createTransfer_balances_witness :
    (findAccount (createTransfer wOracles witnessCryptoEnv unreachableRedis wTransferPrims
        wSerEnv [] [] wReqSmall wOwner wBank).db.accounts 1).map (fun a => a.balance) =
      some ((100 : Rat) - 50) ∧
    (findAccount (createTransfer wOracles witnessCryptoEnv unreachableRedis wTransferPrims
        wSerEnv [] [] wReqSmall wOwner wBank).db.accounts 2).map (fun a => a.balance) =
      some ((0 : Rat) + 50) :=
  createTransfer_balances wOracles witnessCryptoEnv unreachableRedis wTransferPrims
    wSerEnv [] [] wReqSmall wOwner wBank _ _ wOut rfl rfl rfl

/- ============== C6: detector score range and short-window skip ============== -/

theorem averagePathLength_nonneg (O : Oracles)
    (hln1 : ∀ x : Rat, 1 ≤ x → 0 ≤ O.ln x)
    (hln2 : ∀ x : Rat, 2 ≤ x → 1 / 2 ≤ O.ln x) (n : Nat) :
    0 ≤ averagePathLength O n := by
  unfold averagePathLength
  split
  · exact le_refl 0
  · rename_i hn
    have hn2 : 2 ≤ n := by omega
    have hg : (1 : Rat) / 2 ≤ eulerMascheroni := by norm_num [eulerMascheroni]
    rcases Nat.lt_or_ge n 3 with h3 | h3
    · have hn_eq : n = 2 := by omega
      subst hn_eq
      have hl := hln1 1 (le_refl 1)
      norm_num
      linarith
    · have hx : (3 : Rat) ≤ (n : Rat) := by exact_mod_cast h3
      have hxpos : (0 : Rat) < (n : Rat) := by linarith
      have hl := hln2 ((n : Rat) - 1) (by linarith)
      have hfrac : 2 * ((n : Rat) - 1) / (n : Rat) ≤ 2 := by
        rw [div_le_iff₀ hxpos]
        linarith
      linarith

theorem pathLength_nonneg (O : Oracles)
    (hln1 : ∀ x : Rat, 1 ≤ x → 0 ≤ O.ln x)
    (hln2 : ∀ x : Rat, 2 ≤ x → 1 / 2 ≤ O.ln x) (sample : List Rat) (t : ITree) :
    0 ≤ pathLength O sample t := by
  induction t with
  | leaf n => exact averagePathLength_nonneg O hln1 hln2 n
  | node sz attr sv l r ihl ihr =>
      unfold pathLength
      split
      · linarith
      · linarith

theorem isolationForestScore_range (O : Oracles)
    (hpow : ∀ x : Rat, x ≤ 0 → 0 ≤ O.pow2 x ∧ O.pow2 x ≤ 1)
    (hln1 : ∀ x : Rat, 1 ≤ x → 0 ≤ O.ln x)
    (hln2 : ∀ x : Rat, 2 ≤ x → 1 / 2 ≤ O.ln x)
    (subsampleSize : Nat) (trees : List ITree) (sample : List Rat) :
    0 ≤ isolationForestScore O subsampleSize trees sample ∧
      isolationForestScore O subsampleSize trees sample ≤ 1 := by
  unfold isolationForestScore
  split
  · norm_num
  · have hpath : 0 ≤ (trees.map (pathLength O sample)).sum / (trees.length : Rat) := by
      apply div_nonneg
      · apply List.sum_nonneg
        intro x hx
        obtain ⟨t, _, rfl⟩ := List.mem_map.mp hx
        exact pathLength_nonneg O hln1 hln2 sample t
      · exact_mod_cast Nat.zero_le trees.length
    have hc : 0 ≤ averagePathLength O subsampleSize :=
      averagePathLength_nonneg O hln1 hln2 subsampleSize
    have hc1 : 0 < (if averagePathLength O subsampleSize = 0 then 1
        else averagePathLength O subsampleSize) := by
      split
      · norm_num
      · rename_i hne
        exact lt_of_le_of_ne hc (Ne.symm hne)
    exact hpow _ (neg_nonpos_of_nonneg (div_nonneg hpath (le_of_lt hc1)))

/-- C6: the anomaly score of any fitted forest lies in [0, 1] (under the
contracts of the Math.log and Math.pow oracles: log is nonnegative from 1,
at least 1/2 from 2, and 2 to a nonpositive power lies in [0, 1]); and with
fewer than 5 transactions in the window, detectAnomaly returns no score and
leaves the state untouched - no anomaly event is persisted and no anomaly
alert is raised. -/
theorem anomaly_score_range_and_skip (O : Oracles) (env : Env) (redis : RedisWorld)
    (subsampleSize : Nat) (trees : List ITree) (sample : List Rat)
    (accountId : Nat) (transactions : List Txn) (w : WState)
    (hpow : ∀ x : Rat, x ≤ 0 → 0 ≤ O.pow2 x ∧ O.pow2 x ≤ 1)
    (hln1 : ∀ x : Rat, 1 ≤ x → 0 ≤ O.ln x)
    (hln2 : ∀ x : Rat, 2 ≤ x → 1 / 2 ≤ O.ln x)
    (hshort : transactions.length < 5) :
    (0 ≤ isolationForestScore O subsampleSize trees sample ∧
      isolationForestScore O subsampleSize trees sample ≤ 1) ∧
    detectAnomaly O env redis accountId transactions w = (w, Except.ok none) := by
  refine ⟨isolationForestScore_range O hpow hln1 hln2 subsampleSize trees sample, ?_⟩
  unfold detectAnomaly
  rw [if_pos hshort]

/-- Concrete oracles for the detector witness, satisfying the log and power
contracts. -/
def wDetOracles : Oracles :=
  { digest := witnessDigest,
    ln := fun x => if x < 1 then x - 1 else if x < 2 then 0 else 1,
    pow2 := fun _ => 1 / 2, rand := fun _ => 0 }

theorem anomaly_score_range_and_skip_witness :
    (0 ≤ isolationForestScore wDetOracles 5 [ITree.leaf 3] [] ∧
      isolationForestScore wDetOracles 5 [ITree.leaf 3] [] ≤ 1) ∧
    detectAnomaly wDetOracles witnessCryptoEnv unreachableRedis 1 [] emptyWorld =
      (emptyWorld, Except.ok none) := by
  have hln1 : ∀ x : Rat, 1 ≤ x → 0 ≤ wDetOracles.ln x := by
    intro x hx
    simp only [wDetOracles]
    rw [if_neg (not_lt.mpr hx)]
    split <;> norm_num
  have hln2 : ∀ x : Rat, 2 ≤ x → 1 / 2 ≤ wDetOracles.ln x := by
    intro x hx
    simp only [wDetOracles]
    rw [if_neg (not_lt.mpr (by linarith)), if_neg (not_lt.mpr hx)]
    norm_num
  exact anomaly_score_range_and_skip wDetOracles witnessCryptoEnv unreachableRedis 5
    [ITree.leaf 3] [] 1 [] emptyWorld
    (fun x _ => ⟨by simp only [wDetOracles]; norm_num, by simp only [wDetOracles]; norm_num⟩)
    hln1 hln2 (by decide)

/- ============== C7: risk metric formulas ============== -/

/-- Sum of absolute debit amounts over the window (totalDebits of the claim). -/
def specTotalDebits (transactions : List Txn) : Rat :=
  ((transactions.filter (fun t => t.direction == Direction.debit)).map
    (fun t => |t.amount|)).sum

/-- Sum of absolute credit amounts over the window (totalCredits of the claim). -/
def specTotalCredits (transactions : List Txn) : Rat :=
  ((transactions.filter (fun t => t.direction == Direction.credit)).map
    (fun t => |t.amount|)).sum

/-- The rolling loss of the claim: debit amounts added, credit amounts
subtracted, across the window. -/
def specRollingLoss (transactions : List Txn) : Rat :=
  (transactions.map (fun t =>
    match t.direction with
    | Direction.debit => |t.amount|
    | Direction.credit => -|t.amount|)).sum

theorem foldl_metricsStep (transactions : List Txn) (a b c : Rat) :
    transactions.foldl metricsStep (a, b, c) =
      (a + specTotalDebits transactions, b + specTotalCredits transactions,
        c + specRollingLoss transactions) := by
  induction transactions generalizing a b c with
  | nil => simp [specTotalDebits, specTotalCredits, specRollingLoss]
  | cons t ts ih =>
      cases hdir : t.direction
      · have hfstep : metricsStep (a, b, c) t = (a + |t.amount|, b, c + |t.amount|) := by
          unfold metricsStep
          rw [hdir]
        have hD : specTotalDebits (t :: ts) = |t.amount| + specTotalDebits ts := by
          unfold specTotalDebits
          rw [List.filter_cons, if_pos (by rw [hdir]; decide)]
          simp
        have hC : specTotalCredits (t :: ts) = specTotalCredits ts := by
          unfold specTotalCredits
          rw [List.filter_cons, if_neg (by rw [hdir]; simp)]
        have hR : specRollingLoss (t :: ts) = |t.amount| + specRollingLoss ts := by
          unfold specRollingLoss
          rw [List.map_cons, List.sum_cons, hdir]
        rw [List.foldl_cons, hfstep, ih, hD, hC, hR]
        simp only [Prod.mk.injEq]
        refine ⟨by ring, trivial, by ring⟩
      · have hfstep : metricsStep (a, b, c) t = (a, b + |t.amount|, c - |t.amount|) := by
          unfold metricsStep
          rw [hdir]
        have hD : specTotalDebits (t :: ts) = specTotalDebits ts := by
          unfold specTotalDebits
          rw [List.filter_cons, if_neg (by rw [hdir]; simp)]
        have hC : specTotalCredits (t :: ts) = |t.amount| + specTotalCredits ts := by
          unfold specTotalCredits
          rw [List.filter_cons, if_pos (by rw [hdir]; decide)]
          simp
        have hR : specRollingLoss (t :: ts) = -|t.amount| + specRollingLoss ts := by
          unfold specRollingLoss
          rw [List.map_cons, List.sum_cons, hdir]
        rw [List.foldl_cons, hfstep, ih, hD, hC, hR]
        simp only [Prod.mk.injEq]
        refine ⟨trivial, by ring, by ring⟩

theorem computeMetrics_spec (accountBalance : Rat) (transactions : List Txn) :
    computeMetrics accountBalance transactions =
      { exposure := max 0 (specTotalDebits transactions - specTotalCredits transactions),
        leverage := specTotalDebits transactions / max accountBalance 1,
        lossRat := max 0 (specRollingLoss transactions) /
          max (specTotalCredits transactions) 1 } := by
  unfold computeMetrics
  rw [foldl_metricsStep]
  simp

/-- C7: on every successful risk evaluation, the window is at most the 200
most recent transactions of the account, and the returned figures satisfy the
claimed formulas: exposure is max(0, totalDebits - totalCredits), leverage is
totalDebits over max(balance, 1), and the loss ratio is max(0, rollingLoss)
over max(totalCredits, 1), with the sums taken by direction over absolute
amounts and the rolling loss adding debits and subtracting credits. -/
theorem evaluateAccountRisk_metrics (O : Oracles) (env : Env) (redis : RedisWorld)
    (accountId : Nat) (w w2 : WState) (r : RiskEvaluationResult) (a : Account)
    (hacc : findAccount w.db.accounts accountId = some a)
    (hok : evaluateAccountRisk O env redis accountId w = (w2, Except.ok r)) :
    (listTransactionsForAccount w.db accountId 200).length ≤ 200 ∧
    r.exposure = max 0 (specTotalDebits (listTransactionsForAccount w.db accountId 200) -
      specTotalCredits (listTransactionsForAccount w.db accountId 200)) ∧
    r.leverage = specTotalDebits (listTransactionsForAccount w.db accountId 200) /
      max a.balance 1 ∧
    r.lossRat = max 0 (specRollingLoss (listTransactionsForAccount w.db accountId 200)) /
      max (specTotalCredits (listTransactionsForAccount w.db accountId 200)) 1 := by
  refine ⟨List.length_take_le _ _, ?_⟩
  unfold evaluateAccountRisk at hok
  rw [hacc] at hok
  dsimp only at hok
  split at hok
  · simp at hok
  · split at hok
    · simp at hok
    · simp only [Prod.mk.injEq, Except.ok.injEq] at hok
      rw [← hok.2, computeMetrics_spec]
      exact ⟨rfl, rfl, rfl⟩

theorem evaluateAccountRisk_metrics_witness :
    (listTransactionsForAccount wBank 1 200).length ≤ 200 ∧
    ({ exposure := 0, leverage := 0, lossRat := 0, anomalyScore := none } :
        RiskEvaluationResult).exposure =
      max 0 (specTotalDebits (listTransactionsForAccount wBank 1 200) -
        specTotalCredits (listTransactionsForAccount wBank 1 200)) ∧
    ({ exposure := 0, leverage := 0, lossRat := 0, anomalyScore := none } :
        RiskEvaluationResult).leverage =
      specTotalDebits (listTransactionsForAccount wBank 1 200) / max (100 : Rat) 1 ∧
    ({ exposure := 0, leverage := 0, lossRat := 0, anomalyScore := none } :
        RiskEvaluationResult).lossRat =
      max 0 (specRollingLoss (listTransactionsForAccount wBank 1 200)) /
        max (specTotalCredits (listTransactionsForAccount wBank 1 200)) 1 :=
  evaluateAccountRisk_metrics wOracles witnessCryptoEnv unreachableRedis 1
    { db := wBank, trace := [], rng := 0 } _ _
    { id := 1, userId := 10, balance := 100, currency := "USD" } rfl rfl
